import Mathlib

/-!
# 3DShaderProg: shader module and render loop

A shallow embedding of `testProject/testProject/shader.cpp` and
`testProject/testProject/main.cpp`.

The program talks to two external libraries (the OpenGL driver and GLFW).  Their
answers are inputs of the model (`Driver`, `Env`); every call the program makes is
appended to a trace, and the part of the GL / window state the program depends on
is kept in `GLState`, updated by `GLState.apply` for every call.

Code whose behaviour C++ leaves undefined (streaming a `char*` that does not point
to a NUL-terminated string) or that ends in an uncaught exception stops the model
with `Outcome.fault`, carrying the world reached at that point.
-/

namespace Triangle

/-! ## Enumerants of the GL and GLFW headers -/

/-- The value of `GL_FALSE`. -/
def GL_FALSE : Int := 0
/-- The value of `GL_VERTEX_SHADER`. -/
def GL_VERTEX_SHADER : Nat := 0x8B31
/-- The value of `GL_FRAGMENT_SHADER`. -/
def GL_FRAGMENT_SHADER : Nat := 0x8B30
/-- The value of `GL_COMPILE_STATUS`. -/
def GL_COMPILE_STATUS : Nat := 0x8B81
/-- The value of `GL_LINK_STATUS`. -/
def GL_LINK_STATUS : Nat := 0x8B82
/-- The value of `GL_INFO_LOG_LENGTH`. -/
def GL_INFO_LOG_LENGTH : Nat := 0x8B84
/-- The value of `GL_TRIANGLES`. -/
def GL_TRIANGLES : Nat := 0x0004
/-- The value of `GL_COLOR_BUFFER_BIT`. -/
def GL_COLOR_BUFFER_BIT : Nat := 0x4000
/-- The value of `GLFW_KEY_ESCAPE`. -/
def GLFW_KEY_ESCAPE : Nat := 256
/-- The value of `GLFW_PRESS`. -/
def GLFW_PRESS : Int := 1
/-- The value of `GLFW_CONTEXT_VERSION_MAJOR`. -/
def GLFW_CONTEXT_VERSION_MAJOR : Nat := 0x00022002
/-- The value of `GLFW_CONTEXT_VERSION_MINOR`. -/
def GLFW_CONTEXT_VERSION_MINOR : Nat := 0x00022003
/-- The value of `GLFW_OPENGL_PROFILE`. -/
def GLFW_OPENGL_PROFILE : Nat := 0x00022008
/-- The value of `GLFW_OPENGL_CORE_PROFILE`. -/
def GLFW_OPENGL_CORE_PROFILE : Nat := 0x00032001

/-! ## Data model -/

/-- The two module-scope GLSL source constants of `shader.cpp`.  The host code
never inspects their text, it only hands the pointer to `glShaderSource`. -/
inductive Source where
  | vertexShaderSource
  | fragmentShaderSource
deriving DecidableEq, Repr

/-- A GL object, by kind and name. -/
inductive Obj where
  | shader (name : Nat)
  | program (name : Nat)
  | vertexArray (name : Nat)
deriving DecidableEq, Repr

/-- One call into the GL driver, GLFW or glad, with its arguments; a call that
hands something back to the program (`ret`, `flag`) records that value too. -/
inductive Call where
  | glCreateShader (type ret : Nat)
  | glShaderSource (shader : Nat) (src : Source)
  | glCompileShader (shader : Nat)
  | glGetShaderiv (shader pname : Nat)
  | glGetShaderInfoLog (shader : Nat) (bufSize : Int)
  | glDeleteShader (shader : Nat)
  | glCreateProgram (ret : Nat)
  | glAttachShader (prog shader : Nat)
  | glLinkProgram (prog : Nat)
  | glGetProgramiv (prog pname : Nat)
  | glGetProgramInfoLog (prog : Nat) (bufSize : Int)
  | glDeleteProgram (prog : Nat)
  | glViewport (x y width height : Int)
  | glGenVertexArrays (n ret : Nat)
  | glBindVertexArray (array : Nat)
  | glDeleteVertexArrays (n array : Nat)
  | glClearColor (r g b a : ℚ)
  | glClear (mask : Nat)
  | glUseProgram (prog : Nat)
  | glDrawArrays (mode : Nat) (first count : Int)
  | glfwInit (ret : Int)
  | glfwWindowHint (hint value : Nat)
  | glfwCreateWindow (width height : Int) (title : String) (ret : Nat)
  | glfwMakeContextCurrent (window : Nat)
  | glfwSetFramebufferSizeCallback (window : Nat)
  | gladLoadGLLoader (ret : Int)
  | glfwWindowShouldClose (window : Nat) (ret : Bool)
  | glfwGetKey (window key : Nat) (ret : Int)
  | glfwSetWindowShouldClose (window : Nat) (value : Bool)
  | glfwSwapBuffers (window : Nat) (flag : Bool)
  | glfwPollEvents (flag : Bool) (resizes : List (Int × Int))
  | glfwTerminate
deriving DecidableEq, Repr

/-- The part of the GL context and window state the program reads or writes. -/
structure GLState where
  viewport : Int × Int × Int × Int
  currentProgram : Nat
  boundVAO : Nat
  clearColor : ℚ × ℚ × ℚ × ℚ
  shouldClose : Bool
  sizeCallback : Bool
  created : List Obj
  deleted : List Obj
deriving DecidableEq, Repr

/-- The state before the program has made any call. -/
def GLState.init : GLState :=
  { viewport := (0, 0, 0, 0), currentProgram := 0, boundVAO := 0,
    clearColor := (0, 0, 0, 0), shouldClose := false, sizeCallback := false,
    created := [], deleted := [] }

/-- The objects that have been created and not deleted. -/
def GLState.live (s : GLState) : List Obj :=
  s.created.filter (fun o => decide (o ∉ s.deleted))

/-- Effect of `glViewport(x, y, width, height)`. -/
def GLState.glViewport (x y width height : Int) (s : GLState) : GLState :=
  { s with viewport := (x, y, width, height) }

/-- Source: `main.cpp`, `framebuffer_size_callback`, run by GLFW while it processes
events. -/
def framebuffer_size_callback (width height : Int) (s : GLState) : GLState :=
  GLState.glViewport 0 0 width height s

/-- Creating an object: name 0 is what the driver returns when it creates nothing. -/
def GLState.create (o : Obj) (name : Nat) (s : GLState) : GLState :=
  if name = 0 then s else { s with created := s.created ++ [o] }

/-- Deleting an object: GL silently ignores name 0. -/
def GLState.delete (o : Obj) (name : Nat) (s : GLState) : GLState :=
  if name = 0 then s else { s with deleted := s.deleted ++ [o] }

/-- Effect of one call on the modelled state. -/
def GLState.apply (c : Call) (s : GLState) : GLState :=
  match c with
  | .glCreateShader _ ret => s.create (.shader ret) ret
  | .glDeleteShader n => s.delete (.shader n) n
  | .glCreateProgram ret => s.create (.program ret) ret
  | .glDeleteProgram n => s.delete (.program n) n
  | .glGenVertexArrays _ ret => s.create (.vertexArray ret) ret
  | .glDeleteVertexArrays _ n => s.delete (.vertexArray n) n
  | .glViewport x y width height => s.glViewport x y width height
  | .glBindVertexArray v => { s with boundVAO := v }
  | .glClearColor r g b a => { s with clearColor := (r, g, b, a) }
  | .glUseProgram p => { s with currentProgram := p }
  | .glfwSetFramebufferSizeCallback _ => { s with sizeCallback := true }
  | .glfwSetWindowShouldClose _ v => { s with shouldClose := v }
  | .glfwSwapBuffers _ flag => { s with shouldClose := flag }
  | .glfwPollEvents flag resizes =>
      let s1 := if s.sizeCallback then
          resizes.foldl (fun st e => framebuffer_size_callback e.1 e.2 st) s
        else s
      { s1 with shouldClose := flag }
  | _ => s

/-- The state reached from `s` by a sequence of calls. -/
def GLState.after (s : GLState) (t : List Call) : GLState :=
  t.foldl (fun st c => GLState.apply c st) s

/-- The world: modelled GL / window state, the calls made so far, and the text
written to standard error. -/
structure World where
  gl : GLState
  trace : List Call
  cerr : String
deriving DecidableEq, Repr

/-- The world at program start. -/
def World.init : World := { gl := GLState.init, trace := [], cerr := "" }

/-- Make one call: record it and apply its effect. -/
def emit (c : Call) (w : World) : World :=
  { w with gl := w.gl.apply c, trace := w.trace ++ [c] }

/-- Insert text into `std::cerr`. -/
def cerrWrite (text : String) (w : World) : World :=
  { w with cerr := w.cerr ++ text }

/-- How a piece of the program ends: it returns `val`, or it stops in `fault`
(undefined behaviour or an uncaught exception), or the iteration budget of the
render loop ran out while the loop was still `running`. -/
inductive Outcome (α : Type) where
  | ok (val : α) (w : World)
  | fault (w : World)
  | running (w : World)
deriving DecidableEq, Repr

/-- The world an outcome carries. -/
def Outcome.world {α : Type} : Outcome α → World
  | .ok _ w => w
  | .fault w => w
  | .running w => w

/-- Sequencing: continue only after a return. -/
def Outcome.bind {α β : Type} (x : Outcome α) (f : α → World → Outcome β) : Outcome β :=
  match x with
  | .ok v w => f v w
  | .fault w => .fault w
  | .running w => .running w

/-! ## The environment -/

/-- Answers of the GL driver.  `getShaderiv` and `getProgramiv` give the value the
driver stores through the `params` pointer, `none` when it stores nothing (the call
raised a GL error). -/
structure Driver where
  createShader : Nat → Nat
  getShaderiv : Nat → Nat → Option Int
  shaderInfoLog : Nat → List Char
  createProgram : Nat
  getProgramiv : Nat → Nat → Option Int
  programInfoLog : Nat → List Char
  genVertexArray : Option Nat

/-- Answers of GLFW, glad and the driver during one run.  `key i` is what
`glfwGetKey` returns in iteration `i`; `afterSwap i` and `afterPoll i` give the
should-close flag after `glfwSwapBuffers` / `glfwPollEvents` of iteration `i` from
the flag before; `resizes i` are the framebuffer-size events delivered while
`glfwPollEvents` runs in iteration `i`. -/
structure Env where
  glfwInit : Int
  createWindow : Nat
  gladLoad : Int
  driver : Driver
  key : Nat → Int
  afterSwap : Nat → Bool → Bool
  afterPoll : Nat → Bool → Bool
  resizes : Nat → List (Int × Int)

/-! ## Buffers and C strings -/

/-- The terminator of a C string. -/
def NUL : Char := Char.ofNat 0

/-- Construction `std::vector<char> log(len)` from a `GLint`: `len` value-initialised
chars.  A negative `len` converts to a size above `max_size()` and the constructor
throws. -/
def vectorChar (len : Int) : Option (List Char) :=
  if 0 ≤ len then some (List.replicate len.toNat NUL) else none

/-- What `glGetShaderInfoLog` / `glGetProgramInfoLog` leave in a buffer when told
it holds `bufSize` chars: as much of the log as fits, then the terminator; nothing
is written when `bufSize` is not positive. -/
def writeInfoLog (text : List Char) (bufSize : Int) (buf : List Char) : List Char :=
  if bufSize ≤ 0 then buf
  else
    let n := min text.length (bufSize.toNat - 1)
    text.take n ++ [NUL] ++ buf.drop (n + 1)

/-- Reading `log.data()` as a C string, as `operator<<(std::ostream&, const char*)`
does: the chars before the first terminator.  Without a terminator inside the buffer
(in particular for an empty vector, whose `data()` is not dereferenceable) the read
is undefined. -/
def cString (buf : List Char) : Option (List Char) :=
  if NUL ∈ buf then some (buf.takeWhile (fun c => decide (c ≠ NUL))) else none

/-! ## shader.cpp -/

/-- Source: `shader.cpp`, `Compile`. -/
def Compile (d : Driver) (type : Nat) (src : Source) (w : World) : Outcome Nat :=
  let shader := d.createShader type
  let w := emit (.glCreateShader type shader) w
  let w := emit (.glShaderSource shader src) w
  let w := emit (.glCompileShader shader) w
  let ok : Int := (d.getShaderiv shader GL_COMPILE_STATUS).getD GL_FALSE
  let w := emit (.glGetShaderiv shader GL_COMPILE_STATUS) w
  if ok = 0 then
    let len : Int := (d.getShaderiv shader GL_INFO_LOG_LENGTH).getD 0
    let w := emit (.glGetShaderiv shader GL_INFO_LOG_LENGTH) w
    match vectorChar len with
    | none => .fault w
    | some log =>
      let log := writeInfoLog (d.shaderInfoLog shader) len log
      let w := emit (.glGetShaderInfoLog shader len) w
      let w := cerrWrite (if type = GL_VERTEX_SHADER then "Vertex" else "Fragment") w
      let w := cerrWrite " shader compile error:\n" w
      match cString log with
      | none => .fault w
      | some text =>
        let w := cerrWrite (String.mk text) w
        let w := cerrWrite "\n" w
        let w := emit (.glDeleteShader shader) w
        .ok 0 w
  else .ok shader w

/-- Source: `shader.cpp`, `Link`. -/
def Link (d : Driver) (vs fs : Nat) (w : World) : Outcome Nat :=
  let prog := d.createProgram
  let w := emit (.glCreateProgram prog) w
  let w := emit (.glAttachShader prog vs) w
  let w := emit (.glAttachShader prog fs) w
  let w := emit (.glLinkProgram prog) w
  let ok : Int := (d.getProgramiv prog GL_LINK_STATUS).getD GL_FALSE
  let w := emit (.glGetProgramiv prog GL_LINK_STATUS) w
  if ok = 0 then
    let len : Int := (d.getProgramiv prog GL_INFO_LOG_LENGTH).getD 0
    let w := emit (.glGetProgramiv prog GL_INFO_LOG_LENGTH) w
    match vectorChar len with
    | none => .fault w
    | some log =>
      let log := writeInfoLog (d.programInfoLog prog) len log
      let w := emit (.glGetProgramInfoLog prog len) w
      let w := cerrWrite "Program link error:\n" w
      match cString log with
      | none => .fault w
      | some text =>
        let w := cerrWrite (String.mk text) w
        let w := cerrWrite "\n" w
        let w := emit (.glDeleteProgram prog) w
        .ok 0 w
  else .ok prog w

/-- Source: `shader.cpp`, `CreateTriangle`. -/
def CreateTriangle (d : Driver) (w : World) : Outcome Nat :=
  (Compile d GL_VERTEX_SHADER .vertexShaderSource w).bind fun vs w =>
    if vs = 0 then .ok 0 w
    else
      (Compile d GL_FRAGMENT_SHADER .fragmentShaderSource w).bind fun fs w =>
        if fs = 0 then .ok 0 (emit (.glDeleteShader vs) w)
        else
          (Link d vs fs w).bind fun prog w =>
            let w := emit (.glDeleteShader vs) w
            let w := emit (.glDeleteShader fs) w
            .ok prog w

/-- Source: `shader.cpp`, `DestroyTriangle`. -/
def DestroyTriangle (program : Nat) (w : World) : World :=
  if program ≠ 0 then emit (.glDeleteProgram program) w else w

/-! ## main.cpp -/

/-- Source: `main.cpp`, `processInput`, in iteration `i`. -/
def processInput (env : Env) (window i : Nat) (w : World) : World :=
  let state := env.key i
  let w := emit (.glfwGetKey window GLFW_KEY_ESCAPE state) w
  if state = GLFW_PRESS then emit (.glfwSetWindowShouldClose window true) w else w

/-- Source: `main.cpp`, the body of the `while` loop of `main`, in iteration `i`. -/
def iteration (env : Env) (window program i : Nat) (w : World) : World :=
  let w := processInput env window i w
  let w := emit (.glClearColor 0 0 0 1) w
  let w := emit (.glClear GL_COLOR_BUFFER_BIT) w
  let w := emit (.glUseProgram program) w
  let w := emit (.glDrawArrays GL_TRIANGLES 0 6) w
  let w := emit (.glfwSwapBuffers window (env.afterSwap i w.gl.shouldClose)) w
  let w := emit (.glfwPollEvents (env.afterPoll i w.gl.shouldClose) (env.resizes i)) w
  w

/-- Source: `main.cpp`, the `while (!glfwWindowShouldClose(window))` loop of `main`,
from iteration `i` on, with a budget of `fuel` iterations. -/
def renderLoop (env : Env) (window program : Nat) : Nat → Nat → World → Outcome Unit
  | 0, _, w =>
    let close := w.gl.shouldClose
    let w := emit (.glfwWindowShouldClose window close) w
    if close then .ok () w else .running w
  | fuel + 1, i, w =>
    let close := w.gl.shouldClose
    let w := emit (.glfwWindowShouldClose window close) w
    if close then .ok () w
    else renderLoop env window program fuel (i + 1) (iteration env window program i w)

/-- Source: `main.cpp`, `main`, with a budget of `fuel` loop iterations. -/
def main (env : Env) (fuel : Nat) : Outcome Int :=
  let w := World.init
  let w := emit (.glfwInit env.glfwInit) w
  if env.glfwInit = 0 then
    let w := cerrWrite "GLFW init failed\n" w
    .ok (-1) w
  else
    let w := emit (.glfwWindowHint GLFW_CONTEXT_VERSION_MAJOR 3) w
    let w := emit (.glfwWindowHint GLFW_CONTEXT_VERSION_MINOR 3) w
    let w := emit (.glfwWindowHint GLFW_OPENGL_PROFILE GLFW_OPENGL_CORE_PROFILE) w
    let window := env.createWindow
    let w := emit (.glfwCreateWindow 540 480 "Triangle" window) w
    if window = 0 then
      let w := cerrWrite "Failed to create GLFW window\n" w
      let w := emit .glfwTerminate w
      .ok (-1) w
    else
      let w := emit (.glfwMakeContextCurrent window) w
      let w := emit (.glfwSetFramebufferSizeCallback window) w
      let w := emit (.gladLoadGLLoader env.gladLoad) w
      if env.gladLoad = 0 then
        let w := cerrWrite "Failed to initialize GLAD\n" w
        let w := emit .glfwTerminate w
        .ok (-1) w
      else
        (CreateTriangle env.driver w).bind fun program w =>
          if program = 0 then .ok (-1) (emit .glfwTerminate w)
          else
            let VAO : Nat := env.driver.genVertexArray.getD 0
            let w := emit (.glGenVertexArrays 1 VAO) w
            let w := emit (.glBindVertexArray VAO) w
            (renderLoop env window program fuel 0 w).bind fun _ w =>
              let w := emit (.glDeleteVertexArrays 1 VAO) w
              let w := DestroyTriangle program w
              let w := emit .glfwTerminate w
              .ok 0 w

/-! ## Vocabulary of the proofs -/

/-- The world after the calls `cs`, made one after the other from `w`. -/
def World.extend (w : World) (cs : List Call) : World :=
  { gl := w.gl.after cs, trace := w.trace ++ cs, cerr := w.cerr }

/-- The calls of `shader.cpp`: shader and program object management. -/
def Call.inShaderModule : Call → Bool
  | .glCreateShader _ _ => true
  | .glShaderSource _ _ => true
  | .glCompileShader _ => true
  | .glGetShaderiv _ _ => true
  | .glGetShaderInfoLog _ _ => true
  | .glDeleteShader _ => true
  | .glCreateProgram _ => true
  | .glAttachShader _ _ => true
  | .glLinkProgram _ => true
  | .glGetProgramiv _ _ => true
  | .glGetProgramInfoLog _ _ => true
  | .glDeleteProgram _ => true
  | _ => false

/-- The calls `Compile` makes up to and including the status query. -/
def compileCalls (d : Driver) (type : Nat) (src : Source) : List Call :=
  [.glCreateShader type (d.createShader type), .glShaderSource (d.createShader type) src,
   .glCompileShader (d.createShader type),
   .glGetShaderiv (d.createShader type) GL_COMPILE_STATUS]

/-- The calls `Compile` makes when it reports a failure and returns. -/
def compileFailCalls (d : Driver) (type : Nat) (src : Source) : List Call :=
  compileCalls d type src ++
  [.glGetShaderiv (d.createShader type) GL_INFO_LOG_LENGTH,
   .glGetShaderInfoLog (d.createShader type)
     ((d.getShaderiv (d.createShader type) GL_INFO_LOG_LENGTH).getD 0),
   .glDeleteShader (d.createShader type)]

/-- The calls `Link` makes up to and including the status query. -/
def linkCalls (d : Driver) (vs fs : Nat) : List Call :=
  [.glCreateProgram d.createProgram, .glAttachShader d.createProgram vs,
   .glAttachShader d.createProgram fs, .glLinkProgram d.createProgram,
   .glGetProgramiv d.createProgram GL_LINK_STATUS]

/-- The calls `Link` makes when it reports a failure and returns. -/
def linkFailCalls (d : Driver) (vs fs : Nat) : List Call :=
  linkCalls d vs fs ++
  [.glGetProgramiv d.createProgram GL_INFO_LOG_LENGTH,
   .glGetProgramInfoLog d.createProgram
     ((d.getProgramiv d.createProgram GL_INFO_LOG_LENGTH).getD 0),
   .glDeleteProgram d.createProgram]

/-- The calls a successful `CreateTriangle` makes. -/
def successCalls (d : Driver) : List Call :=
  compileCalls d GL_VERTEX_SHADER .vertexShaderSource
  ++ compileCalls d GL_FRAGMENT_SHADER .fragmentShaderSource
  ++ linkCalls d (d.createShader GL_VERTEX_SHADER) (d.createShader GL_FRAGMENT_SHADER)
  ++ [.glDeleteShader (d.createShader GL_VERTEX_SHADER),
      .glDeleteShader (d.createShader GL_FRAGMENT_SHADER)]

/-- The value `Compile` reads for `GL_COMPILE_STATUS` of the shader of stage `type`. -/
def Driver.compileStatus (d : Driver) (type : Nat) : Int :=
  (d.getShaderiv (d.createShader type) GL_COMPILE_STATUS).getD GL_FALSE

/-- The value `Link` reads for `GL_LINK_STATUS`. -/
def Driver.linkStatus (d : Driver) : Int :=
  (d.getProgramiv d.createProgram GL_LINK_STATUS).getD GL_FALSE

/-- The object a call creates, if any. -/
def Call.creates : Call → List Obj
  | .glCreateShader _ ret => if ret = 0 then [] else [.shader ret]
  | .glCreateProgram ret => if ret = 0 then [] else [.program ret]
  | .glGenVertexArrays _ ret => if ret = 0 then [] else [.vertexArray ret]
  | _ => []

/-- The object a call deletes, if any. -/
def Call.deletes : Call → List Obj
  | .glDeleteShader n => if n = 0 then [] else [.shader n]
  | .glDeleteProgram n => if n = 0 then [] else [.program n]
  | .glDeleteVertexArrays _ n => if n = 0 then [] else [.vertexArray n]
  | _ => []

/-- The objects created by a sequence of calls, in order. -/
def createdBy : List Call → List Obj
  | [] => []
  | c :: cs => c.creates ++ createdBy cs

/-- The objects deleted by a sequence of calls, in order. -/
def deletedBy : List Call → List Obj
  | [] => []
  | c :: cs => c.deletes ++ deletedBy cs

/-- The entry point a call goes to, without its arguments. -/
inductive Api where
  | glCreateShader | glShaderSource | glCompileShader | glGetShaderiv | glGetShaderInfoLog
  | glDeleteShader | glCreateProgram | glAttachShader | glLinkProgram | glGetProgramiv
  | glGetProgramInfoLog | glDeleteProgram | glViewport | glGenVertexArrays
  | glBindVertexArray | glDeleteVertexArrays | glClearColor | glClear | glUseProgram
  | glDrawArrays | glfwInit | glfwWindowHint | glfwCreateWindow | glfwMakeContextCurrent
  | glfwSetFramebufferSizeCallback | gladLoadGLLoader | glfwWindowShouldClose | glfwGetKey
  | glfwSetWindowShouldClose | glfwSwapBuffers | glfwPollEvents | glfwTerminate
deriving DecidableEq, Repr

/-- The entry point of a call. -/
def Call.api : Call → Api
  | .glCreateShader _ _ => .glCreateShader
  | .glShaderSource _ _ => .glShaderSource
  | .glCompileShader _ => .glCompileShader
  | .glGetShaderiv _ _ => .glGetShaderiv
  | .glGetShaderInfoLog _ _ => .glGetShaderInfoLog
  | .glDeleteShader _ => .glDeleteShader
  | .glCreateProgram _ => .glCreateProgram
  | .glAttachShader _ _ => .glAttachShader
  | .glLinkProgram _ => .glLinkProgram
  | .glGetProgramiv _ _ => .glGetProgramiv
  | .glGetProgramInfoLog _ _ => .glGetProgramInfoLog
  | .glDeleteProgram _ => .glDeleteProgram
  | .glViewport _ _ _ _ => .glViewport
  | .glGenVertexArrays _ _ => .glGenVertexArrays
  | .glBindVertexArray _ => .glBindVertexArray
  | .glDeleteVertexArrays _ _ => .glDeleteVertexArrays
  | .glClearColor _ _ _ _ => .glClearColor
  | .glClear _ => .glClear
  | .glUseProgram _ => .glUseProgram
  | .glDrawArrays _ _ _ => .glDrawArrays
  | .glfwInit _ => .glfwInit
  | .glfwWindowHint _ _ => .glfwWindowHint
  | .glfwCreateWindow _ _ _ _ => .glfwCreateWindow
  | .glfwMakeContextCurrent _ => .glfwMakeContextCurrent
  | .glfwSetFramebufferSizeCallback _ => .glfwSetFramebufferSizeCallback
  | .gladLoadGLLoader _ => .gladLoadGLLoader
  | .glfwWindowShouldClose _ _ => .glfwWindowShouldClose
  | .glfwGetKey _ _ _ => .glfwGetKey
  | .glfwSetWindowShouldClose _ _ => .glfwSetWindowShouldClose
  | .glfwSwapBuffers _ _ => .glfwSwapBuffers
  | .glfwPollEvents _ _ => .glfwPollEvents
  | .glfwTerminate => .glfwTerminate

/-- The entry points the body of the render loop goes to. -/
def renderApis : List Api :=
  [.glfwGetKey, .glfwSetWindowShouldClose, .glClearColor, .glClear, .glUseProgram,
   .glDrawArrays, .glfwSwapBuffers, .glfwPollEvents]

/-- The calls of one pass through the loop body in iteration `i`, entered with the
should-close flag `b`. -/
def frameCalls (env : Env) (window program i : Nat) (b : Bool) : List Call :=
  [Call.glfwGetKey window GLFW_KEY_ESCAPE (env.key i)]
  ++ (if env.key i = GLFW_PRESS then [Call.glfwSetWindowShouldClose window true] else [])
  ++ [.glClearColor 0 0 0 1, .glClear GL_COLOR_BUFFER_BIT, .glUseProgram program,
      .glDrawArrays GL_TRIANGLES 0 6,
      .glfwSwapBuffers window
        (env.afterSwap i (if env.key i = GLFW_PRESS then true else b)),
      .glfwPollEvents
        (env.afterPoll i (env.afterSwap i (if env.key i = GLFW_PRESS then true else b)))
        (env.resizes i)]

/-- The should-close flag after the loop body of iteration `i`, entered with `b`. -/
def frameFlag (env : Env) (i : Nat) (b : Bool) : Bool :=
  env.afterPoll i (env.afterSwap i (if env.key i = GLFW_PRESS then true else b))

/-- The calls of the render loop from iteration `i` on, entered with flag `b`, within
a budget of `fuel` iterations. -/
def loopCalls (env : Env) (window program : Nat) : Nat → Nat → Bool → List Call
  | 0, _, b => [.glfwWindowShouldClose window b]
  | fuel + 1, i, b =>
    .glfwWindowShouldClose window b ::
      (if b then []
       else frameCalls env window program i false
          ++ loopCalls env window program fuel (i + 1) (frameFlag env i false))

/-- Whether the render loop, from iteration `i` on and entered with flag `b`, exits
within `fuel` iterations. -/
def loopExits (env : Env) : Nat → Nat → Bool → Bool
  | 0, _, b => b
  | fuel + 1, i, b => if b then true else loopExits env fuel (i + 1) (frameFlag env i false)

/-- The calls of `main` before `CreateTriangle`, when start-up succeeds. -/
def startupCalls (env : Env) : List Call :=
  [.glfwInit env.glfwInit,
   .glfwWindowHint GLFW_CONTEXT_VERSION_MAJOR 3,
   .glfwWindowHint GLFW_CONTEXT_VERSION_MINOR 3,
   .glfwWindowHint GLFW_OPENGL_PROFILE GLFW_OPENGL_CORE_PROFILE,
   .glfwCreateWindow 540 480 "Triangle" env.createWindow,
   .glfwMakeContextCurrent env.createWindow,
   .glfwSetFramebufferSizeCallback env.createWindow,
   .gladLoadGLLoader env.gladLoad]

/-- A property of every call of a sequence together with the state it is made in,
starting from `s`. -/
def AllCalls (P : GLState → Call → Prop) : GLState → List Call → Prop
  | _, [] => True
  | s, c :: cs => P s c ∧ AllCalls P (s.apply c) cs

/-- The calls of a run of `main` that reaches the render loop, up to the point where
the loop exits or its budget of `fuel` iterations ends. -/
def runCalls (env : Env) (fuel : Nat) : List Call :=
  startupCalls env ++ successCalls env.driver
  ++ [.glGenVertexArrays 1 (env.driver.genVertexArray.getD 0),
      .glBindVertexArray (env.driver.genVertexArray.getD 0)]
  ++ loopCalls env env.createWindow env.driver.createProgram fuel 0 false

/-- The entry points `main` goes to outside the render loop and its set-up and
tear-down of the vertex array: start-up, the shader module, and `glfwTerminate`. -/
def setupApis : List Api :=
  [.glfwInit, .glfwWindowHint, .glfwCreateWindow, .glfwMakeContextCurrent,
   .glfwSetFramebufferSizeCallback, .gladLoadGLLoader, .glfwTerminate,
   .glCreateShader, .glShaderSource, .glCompileShader, .glGetShaderiv,
   .glGetShaderInfoLog, .glDeleteShader, .glCreateProgram, .glAttachShader,
   .glLinkProgram, .glGetProgramiv, .glGetProgramInfoLog, .glDeleteProgram]

/-! ## Concrete environments -/

/-- A driver on which both stages compile and the program links: names 1, 2, 3 for
vertex shader, fragment shader and program, 4 for the vertex array. -/
def goodDriver : Driver :=
  { createShader := fun type => if type = GL_VERTEX_SHADER then 1 else 2
    getShaderiv := fun _ pname => if pname = GL_COMPILE_STATUS then some 1 else some 0
    shaderInfoLog := fun _ => []
    createProgram := 3
    getProgramiv := fun _ pname => if pname = GL_LINK_STATUS then some 1 else some 0
    programInfoLog := fun _ => []
    genVertexArray := some 4 }

/-- A driver on which the vertex stage fails to compile and the driver has no info
log for it: `GL_INFO_LOG_LENGTH` reads 0. -/
def silentDriver : Driver :=
  { goodDriver with getShaderiv := fun _ _ => some 0 }

/-- A driver on which the fragment stage fails to compile with the info log `bad`. -/
def fragFailDriver : Driver :=
  { goodDriver with
    getShaderiv := fun shader pname =>
      if pname = GL_COMPILE_STATUS then (if shader = 1 then some 1 else some 0) else some 4
    shaderInfoLog := fun _ => ['b', 'a', 'd'] }

/-- A driver on which linking fails with the info log `no`. -/
def linkFailDriver : Driver :=
  { goodDriver with
    getProgramiv := fun _ pname => if pname = GL_LINK_STATUS then some 0 else some 3
    programInfoLog := fun _ => ['n', 'o'] }

/-- A run in which everything starts up and Escape is pressed in the second
iteration (index 1); swap and poll leave the should-close flag alone. -/
def escEnv : Env :=
  { glfwInit := 1, createWindow := 7, gladLoad := 1, driver := goodDriver
    key := fun i => if i = 1 then GLFW_PRESS else 0
    afterSwap := fun _ b => b
    afterPoll := fun _ b => b
    resizes := fun i => if i = 0 then [(800, 600)] else [] }

/-- A run in which the program object fails to link. -/
def linkFailEnv : Env :=
  { glfwInit := 1, createWindow := 7, gladLoad := 1, driver := linkFailDriver
    key := fun _ => 0
    afterSwap := fun _ b => b
    afterPoll := fun _ b => b
    resizes := fun _ => [] }

/-! ## Worlds as extensions by calls -/

theorem emit_eq_extend (c : Call) (w : World) : emit c w = w.extend [c] := by
  simp [emit, World.extend, GLState.after]

theorem extend_extend (w : World) (a b : List Call) :
    (w.extend a).extend b = w.extend (a ++ b) := by
  simp [World.extend, GLState.after, List.foldl_append]

theorem extend_nil (w : World) : w.extend [] = w := by
  simp [World.extend, GLState.after]

theorem cerrWrite_extend (t : String) (w : World) (cs : List Call) :
    cerrWrite t (w.extend cs) = (cerrWrite t w).extend cs := by
  simp [World.extend, cerrWrite]

theorem cerrWrite_cerrWrite (a b : String) (w : World) :
    cerrWrite b (cerrWrite a w) = cerrWrite (a ++ b) w := by
  simp [cerrWrite, String.append_assoc]

theorem cerrWrite_empty (w : World) : cerrWrite "" w = w := by
  simp [cerrWrite]

theorem Compile_world (d : Driver) (type : Nat) (src : Source) (w : World) :
    ∃ t cs, (Compile d type src w).world = (cerrWrite t w).extend cs
      ∧ ∀ c ∈ cs, c.inShaderModule = true := by
  unfold Compile
  simp only [emit_eq_extend, cerrWrite_extend, extend_extend, cerrWrite_cerrWrite]
  split
  · split
    · exact ⟨"", _, by rw [cerrWrite_empty]; rfl, by simp [Call.inShaderModule]⟩
    · split
      · exact ⟨_, _, rfl, by simp [Call.inShaderModule]⟩
      · exact ⟨_, _, rfl, by simp [Call.inShaderModule]⟩
  · exact ⟨"", _, by rw [cerrWrite_empty]; rfl, by simp [Call.inShaderModule]⟩

theorem Link_world (d : Driver) (vs fs : Nat) (w : World) :
    ∃ t cs, (Link d vs fs w).world = (cerrWrite t w).extend cs
      ∧ ∀ c ∈ cs, c.inShaderModule = true := by
  unfold Link
  simp only [emit_eq_extend, cerrWrite_extend, extend_extend, cerrWrite_cerrWrite]
  split
  · split
    · exact ⟨"", _, by rw [cerrWrite_empty]; rfl, by simp [Call.inShaderModule]⟩
    · split
      · exact ⟨_, _, rfl, by simp [Call.inShaderModule]⟩
      · exact ⟨_, _, rfl, by simp [Call.inShaderModule]⟩
  · exact ⟨"", _, by rw [cerrWrite_empty]; rfl, by simp [Call.inShaderModule]⟩

theorem world_bind_extends {α β : Type} (x : Outcome α) (f : α → World → Outcome β)
    (w : World) (P : Call → Prop)
    (hx : ∃ t cs, x.world = (cerrWrite t w).extend cs ∧ ∀ c ∈ cs, P c)
    (hf : ∀ v w1, ∃ t cs, (f v w1).world = (cerrWrite t w1).extend cs ∧ ∀ c ∈ cs, P c) :
    ∃ t cs, (x.bind f).world = (cerrWrite t w).extend cs ∧ ∀ c ∈ cs, P c := by
  obtain ⟨t, cs, hw, hP⟩ := hx
  cases x with
  | ok v w1 =>
    obtain ⟨t2, cs2, hw2, hP2⟩ := hf v w1
    refine ⟨t ++ t2, cs ++ cs2, ?_, ?_⟩
    · have hw1 : w1 = (cerrWrite t w).extend cs := hw
      show (f v w1).world = _
      rw [hw2, hw1, cerrWrite_extend, cerrWrite_cerrWrite, extend_extend]
    · intro c hc
      rcases List.mem_append.mp hc with h | h
      · exact hP c h
      · exact hP2 c h
  | fault w1 => exact ⟨t, cs, hw, hP⟩
  | running w1 => exact ⟨t, cs, hw, hP⟩

theorem ok_world_extends {α : Type} (v : α) (w : World) (cs : List Call) (P : Call → Prop)
    (h : ∀ c ∈ cs, P c) :
    ∃ t cs1, (Outcome.ok v (w.extend cs)).world = (cerrWrite t w).extend cs1 ∧ ∀ c ∈ cs1, P c :=
  ⟨"", cs, by rw [cerrWrite_empty]; rfl, h⟩

theorem CreateTriangle_world (d : Driver) (w : World) :
    ∃ t cs, (CreateTriangle d w).world = (cerrWrite t w).extend cs
      ∧ ∀ c ∈ cs, c.inShaderModule = true := by
  unfold CreateTriangle
  apply world_bind_extends _ _ _ _ (Compile_world d _ _ w)
  intro vs w1
  split
  · exact ok_world_extends 0 w1 [] _ (by simp) |>.imp fun t h => by simpa [extend_nil] using h
  · apply world_bind_extends _ _ _ _ (Compile_world d _ _ w1)
    intro fs w2
    split
    · rw [emit_eq_extend]
      exact ok_world_extends 0 w2 _ _ (by simp [Call.inShaderModule])
    · apply world_bind_extends _ _ _ _ (Link_world d _ _ w2)
      intro prog w3
      simp only [emit_eq_extend, extend_extend]
      exact ok_world_extends prog w3 _ _ (by simp [Call.inShaderModule])

theorem Compile_not_running (d : Driver) (type : Nat) (src : Source) (w w1 : World) :
    Compile d type src w ≠ .running w1 := by
  intro h
  simp only [Compile] at h
  split at h <;> (try split at h) <;> (try split at h) <;> (try split at h) <;> cases h

theorem Link_not_running (d : Driver) (vs fs : Nat) (w w1 : World) :
    Link d vs fs w ≠ .running w1 := by
  intro h
  simp only [Link] at h
  split at h <;> (try split at h) <;> (try split at h) <;> cases h

theorem CreateTriangle_not_running (d : Driver) (w w1 : World) :
    CreateTriangle d w ≠ .running w1 := by
  unfold CreateTriangle
  intro h
  cases h1 : Compile d GL_VERTEX_SHADER .vertexShaderSource w with
  | running w2 => exact Compile_not_running _ _ _ _ _ h1
  | fault w2 => rw [h1] at h; cases h
  | ok vs w2 =>
    rw [h1] at h
    simp only [Outcome.bind] at h
    split at h
    · cases h
    · cases h2 : Compile d GL_FRAGMENT_SHADER .fragmentShaderSource w2 with
      | running w3 => exact Compile_not_running _ _ _ _ _ h2
      | fault w3 => rw [h2] at h; cases h
      | ok fs w3 =>
        rw [h2] at h
        simp only [Outcome.bind] at h
        split at h
        · cases h
        · cases h3 : Link d vs fs w3 with
          | running w4 => exact Link_not_running _ _ _ _ _ h3
          | fault w4 => rw [h3] at h; cases h
          | ok p w4 => rw [h3] at h; cases h

theorem Compile_ok (d : Driver) (type : Nat) (src : Source) (w w1 : World) (r : Nat)
    (h : Compile d type src w = .ok r w1) :
    ((d.getShaderiv (d.createShader type) GL_COMPILE_STATUS).getD GL_FALSE ≠ 0
        ∧ r = d.createShader type
        ∧ w1 = w.extend [.glCreateShader type (d.createShader type),
            .glShaderSource (d.createShader type) src, .glCompileShader (d.createShader type),
            .glGetShaderiv (d.createShader type) GL_COMPILE_STATUS])
    ∨ ((d.getShaderiv (d.createShader type) GL_COMPILE_STATUS).getD GL_FALSE = 0
        ∧ r = 0
        ∧ ∃ log text, vectorChar ((d.getShaderiv (d.createShader type) GL_INFO_LOG_LENGTH).getD 0)
              = some log
          ∧ cString (writeInfoLog (d.shaderInfoLog (d.createShader type))
              ((d.getShaderiv (d.createShader type) GL_INFO_LOG_LENGTH).getD 0) log) = some text
          ∧ w1 = (cerrWrite ((if type = GL_VERTEX_SHADER then "Vertex" else "Fragment")
                ++ " shader compile error:\n" ++ String.mk text ++ "\n") w).extend
              [.glCreateShader type (d.createShader type),
               .glShaderSource (d.createShader type) src, .glCompileShader (d.createShader type),
               .glGetShaderiv (d.createShader type) GL_COMPILE_STATUS,
               .glGetShaderiv (d.createShader type) GL_INFO_LOG_LENGTH,
               .glGetShaderInfoLog (d.createShader type)
                 ((d.getShaderiv (d.createShader type) GL_INFO_LOG_LENGTH).getD 0),
               .glDeleteShader (d.createShader type)]) := by
  simp only [Compile] at h
  by_cases hs : (d.getShaderiv (d.createShader type) GL_COMPILE_STATUS).getD GL_FALSE = 0
  · rw [if_pos hs] at h
    right
    refine ⟨hs, ?_⟩
    cases hv : vectorChar ((d.getShaderiv (d.createShader type) GL_INFO_LOG_LENGTH).getD 0) with
    | none => rw [hv] at h; cases h
    | some log =>
      rw [hv] at h
      simp only at h
      cases hc : cString (writeInfoLog (d.shaderInfoLog (d.createShader type))
              ((d.getShaderiv (d.createShader type) GL_INFO_LOG_LENGTH).getD 0) log) with
      | none => rw [hc] at h; cases h
      | some text =>
        rw [hc] at h
        simp only [Outcome.ok.injEq] at h
        refine ⟨h.1.symm, log, text, rfl, hc, ?_⟩
        rw [← h.2]
        simp only [emit_eq_extend, cerrWrite_extend, extend_extend, cerrWrite_cerrWrite,
          List.cons_append, List.nil_append, String.append_assoc]
  · rw [if_neg hs] at h
    left
    simp only [Outcome.ok.injEq] at h
    refine ⟨hs, h.1.symm, ?_⟩
    rw [← h.2]
    simp only [emit_eq_extend, extend_extend, List.cons_append, List.nil_append]

theorem Link_ok (d : Driver) (vs fs : Nat) (w w1 : World) (r : Nat)
    (h : Link d vs fs w = .ok r w1) :
    ((d.getProgramiv d.createProgram GL_LINK_STATUS).getD GL_FALSE ≠ 0
        ∧ r = d.createProgram
        ∧ w1 = w.extend [.glCreateProgram d.createProgram, .glAttachShader d.createProgram vs,
            .glAttachShader d.createProgram fs, .glLinkProgram d.createProgram,
            .glGetProgramiv d.createProgram GL_LINK_STATUS])
    ∨ ((d.getProgramiv d.createProgram GL_LINK_STATUS).getD GL_FALSE = 0
        ∧ r = 0
        ∧ ∃ log text, vectorChar ((d.getProgramiv d.createProgram GL_INFO_LOG_LENGTH).getD 0)
              = some log
          ∧ cString (writeInfoLog (d.programInfoLog d.createProgram)
              ((d.getProgramiv d.createProgram GL_INFO_LOG_LENGTH).getD 0) log) = some text
          ∧ w1 = (cerrWrite ("Program link error:\n" ++ String.mk text ++ "\n") w).extend
              [.glCreateProgram d.createProgram, .glAttachShader d.createProgram vs,
               .glAttachShader d.createProgram fs, .glLinkProgram d.createProgram,
               .glGetProgramiv d.createProgram GL_LINK_STATUS,
               .glGetProgramiv d.createProgram GL_INFO_LOG_LENGTH,
               .glGetProgramInfoLog d.createProgram
                 ((d.getProgramiv d.createProgram GL_INFO_LOG_LENGTH).getD 0),
               .glDeleteProgram d.createProgram]) := by
  simp only [Link] at h
  by_cases hs : (d.getProgramiv d.createProgram GL_LINK_STATUS).getD GL_FALSE = 0
  · rw [if_pos hs] at h
    right
    refine ⟨hs, ?_⟩
    cases hv : vectorChar ((d.getProgramiv d.createProgram GL_INFO_LOG_LENGTH).getD 0) with
    | none => rw [hv] at h; cases h
    | some log =>
      rw [hv] at h
      simp only at h
      cases hc : cString (writeInfoLog (d.programInfoLog d.createProgram)
              ((d.getProgramiv d.createProgram GL_INFO_LOG_LENGTH).getD 0) log) with
      | none => rw [hc] at h; cases h
      | some text =>
        rw [hc] at h
        simp only [Outcome.ok.injEq] at h
        refine ⟨h.1.symm, log, text, rfl, hc, ?_⟩
        rw [← h.2]
        simp only [emit_eq_extend, cerrWrite_extend, extend_extend, cerrWrite_cerrWrite,
          List.cons_append, List.nil_append, String.append_assoc]
  · rw [if_neg hs] at h
    left
    simp only [Outcome.ok.injEq] at h
    refine ⟨hs, h.1.symm, ?_⟩
    rw [← h.2]
    simp only [emit_eq_extend, extend_extend, List.cons_append, List.nil_append]

theorem Compile_indep (d : Driver) (type : Nat) (src : Source) (w v w1 : World) (r : Nat)
    (h : Compile d type src w = .ok r w1) : ∃ v1, Compile d type src v = .ok r v1 := by
  rcases Compile_ok _ _ _ _ _ _ h with ⟨hs, hr, -⟩ | ⟨hs, hr, log, text, hv, hc, -⟩
  · simp only [Compile, hs, if_false]
    exact ⟨_, by rw [hr]⟩
  · simp only [Compile, hs, if_true, hv, hc]
    exact ⟨_, by rw [hr]⟩

theorem Link_indep (d : Driver) (vs fs : Nat) (w v w1 : World) (r : Nat)
    (h : Link d vs fs w = .ok r w1) : ∃ v1, Link d vs fs v = .ok r v1 := by
  rcases Link_ok _ _ _ _ _ _ h with ⟨hs, hr, -⟩ | ⟨hs, hr, log, text, hv, hc, -⟩
  · simp only [Link, hs, if_false]
    exact ⟨_, by rw [hr]⟩
  · simp only [Link, hs, if_true, hv, hc]
    exact ⟨_, by rw [hr]⟩

/-- What `CreateTriangle` returns does not depend on the world it is called in. -/
theorem CreateTriangle_indep (d : Driver) (w v w1 : World) (r : Nat)
    (h : CreateTriangle d w = .ok r w1) : ∃ v1, CreateTriangle d v = .ok r v1 := by
  simp only [CreateTriangle] at h ⊢
  cases h1 : Compile d GL_VERTEX_SHADER .vertexShaderSource w with
  | running w2 => exact absurd h1 (Compile_not_running _ _ _ _ _)
  | fault w2 => rw [h1] at h; cases h
  | ok vs w2 =>
    obtain ⟨v2, e1⟩ := Compile_indep _ _ _ _ v _ _ h1
    rw [h1] at h
    rw [e1]
    simp only [Outcome.bind] at h ⊢
    by_cases hvs : vs = 0
    · rw [if_pos hvs] at h ⊢
      simp only [Outcome.ok.injEq] at h
      exact ⟨_, by rw [h.1]⟩
    · rw [if_neg hvs] at h ⊢
      cases h2 : Compile d GL_FRAGMENT_SHADER .fragmentShaderSource w2 with
      | running w3 => exact absurd h2 (Compile_not_running _ _ _ _ _)
      | fault w3 => rw [h2] at h; cases h
      | ok fs w3 =>
        obtain ⟨v3, e2⟩ := Compile_indep _ _ _ _ v2 _ _ h2
        rw [h2] at h
        rw [e2]
        simp only [Outcome.bind] at h ⊢
        by_cases hfs : fs = 0
        · rw [if_pos hfs] at h ⊢
          simp only [Outcome.ok.injEq] at h
          exact ⟨_, by rw [h.1]⟩
        · rw [if_neg hfs] at h ⊢
          cases h3 : Link d vs fs w3 with
          | running w4 => exact absurd h3 (Link_not_running _ _ _ _ _)
          | fault w4 => rw [h3] at h; cases h
          | ok p w4 =>
            obtain ⟨v4, e3⟩ := Link_indep _ _ _ _ v3 _ _ h3
            rw [h3] at h
            rw [e3]
            simp only [Outcome.bind, Outcome.ok.injEq] at h ⊢
            exact ⟨_, h.1, rfl⟩

theorem resize_fold_created (rs : List (Int × Int)) (s : GLState) :
    (rs.foldl (fun st e => framebuffer_size_callback e.1 e.2 st) s).created = s.created
    ∧ (rs.foldl (fun st e => framebuffer_size_callback e.1 e.2 st) s).deleted = s.deleted
    ∧ (rs.foldl (fun st e => framebuffer_size_callback e.1 e.2 st) s).currentProgram
        = s.currentProgram
    ∧ (rs.foldl (fun st e => framebuffer_size_callback e.1 e.2 st) s).shouldClose
        = s.shouldClose
    ∧ (rs.foldl (fun st e => framebuffer_size_callback e.1 e.2 st) s).sizeCallback
        = s.sizeCallback := by
  induction rs generalizing s with
  | nil => simp
  | cons e rs ih =>
    simp only [List.foldl_cons]
    obtain ⟨h1, h2, h3, h4, h5⟩ := ih (framebuffer_size_callback e.1 e.2 s)
    rw [h1, h2, h3, h4, h5]
    simp [framebuffer_size_callback, GLState.glViewport]

theorem apply_created (c : Call) (s : GLState) :
    (s.apply c).created = s.created ++ c.creates := by
  cases c <;> simp [GLState.apply, GLState.create, GLState.delete, GLState.glViewport,
    Call.creates]
  all_goals first
    | (split <;> simp)
    | (split
       · exact (resize_fold_created _ _).1
       · rfl)

theorem apply_deleted (c : Call) (s : GLState) :
    (s.apply c).deleted = s.deleted ++ c.deletes := by
  cases c <;> simp [GLState.apply, GLState.create, GLState.delete, GLState.glViewport,
    Call.deletes]
  all_goals first
    | (split <;> simp)
    | (split
       · exact (resize_fold_created _ _).2.1
       · rfl)

theorem after_created (cs : List Call) (s : GLState) :
    (s.after cs).created = s.created ++ createdBy cs := by
  induction cs generalizing s with
  | nil => simp [GLState.after, createdBy]
  | cons c cs ih =>
    have := ih (s.apply c)
    simp only [GLState.after, List.foldl_cons] at this ⊢
    rw [this, apply_created, createdBy, List.append_assoc]

theorem after_deleted (cs : List Call) (s : GLState) :
    (s.after cs).deleted = s.deleted ++ deletedBy cs := by
  induction cs generalizing s with
  | nil => simp [GLState.after, deletedBy]
  | cons c cs ih =>
    have := ih (s.apply c)
    simp only [GLState.after, List.foldl_cons] at this ⊢
    rw [this, apply_deleted, deletedBy, List.append_assoc]

theorem CreateTriangle_ok_cases (d : Driver) (w w1 : World) (r : Nat)
    (h : CreateTriangle d w = .ok r w1) :
    ∃ t cs, w1 = (cerrWrite t w).extend cs ∧
      ((r = 0 ∧ d.createShader GL_VERTEX_SHADER = 0 ∧ d.compileStatus GL_VERTEX_SHADER ≠ 0
          ∧ cs = compileCalls d GL_VERTEX_SHADER .vertexShaderSource)
      ∨ (r = 0 ∧ d.compileStatus GL_VERTEX_SHADER = 0
          ∧ cs = compileFailCalls d GL_VERTEX_SHADER .vertexShaderSource)
      ∨ (r = 0 ∧ d.createShader GL_VERTEX_SHADER ≠ 0 ∧ d.compileStatus GL_VERTEX_SHADER ≠ 0
          ∧ d.createShader GL_FRAGMENT_SHADER = 0 ∧ d.compileStatus GL_FRAGMENT_SHADER ≠ 0
          ∧ cs = compileCalls d GL_VERTEX_SHADER .vertexShaderSource
              ++ compileCalls d GL_FRAGMENT_SHADER .fragmentShaderSource
              ++ [.glDeleteShader (d.createShader GL_VERTEX_SHADER)])
      ∨ (r = 0 ∧ d.createShader GL_VERTEX_SHADER ≠ 0 ∧ d.compileStatus GL_VERTEX_SHADER ≠ 0
          ∧ d.compileStatus GL_FRAGMENT_SHADER = 0
          ∧ cs = compileCalls d GL_VERTEX_SHADER .vertexShaderSource
              ++ compileFailCalls d GL_FRAGMENT_SHADER .fragmentShaderSource
              ++ [.glDeleteShader (d.createShader GL_VERTEX_SHADER)])
      ∨ (r = d.createProgram ∧ t = ""
          ∧ d.createShader GL_VERTEX_SHADER ≠ 0 ∧ d.compileStatus GL_VERTEX_SHADER ≠ 0
          ∧ d.createShader GL_FRAGMENT_SHADER ≠ 0 ∧ d.compileStatus GL_FRAGMENT_SHADER ≠ 0
          ∧ d.linkStatus ≠ 0 ∧ cs = successCalls d)
      ∨ (r = 0 ∧ d.createShader GL_VERTEX_SHADER ≠ 0 ∧ d.compileStatus GL_VERTEX_SHADER ≠ 0
          ∧ d.createShader GL_FRAGMENT_SHADER ≠ 0 ∧ d.compileStatus GL_FRAGMENT_SHADER ≠ 0
          ∧ d.linkStatus = 0
          ∧ cs = compileCalls d GL_VERTEX_SHADER .vertexShaderSource
              ++ compileCalls d GL_FRAGMENT_SHADER .fragmentShaderSource
              ++ linkFailCalls d (d.createShader GL_VERTEX_SHADER)
                  (d.createShader GL_FRAGMENT_SHADER)
              ++ [.glDeleteShader (d.createShader GL_VERTEX_SHADER),
                  .glDeleteShader (d.createShader GL_FRAGMENT_SHADER)])) := by
  simp only [CreateTriangle] at h
  cases h1 : Compile d GL_VERTEX_SHADER .vertexShaderSource w with
  | running w2 => exact absurd h1 (Compile_not_running _ _ _ _ _)
  | fault w2 => rw [h1] at h; cases h
  | ok vs w2 =>
    rw [h1] at h
    simp only [Outcome.bind] at h
    rcases Compile_ok _ _ _ _ _ _ h1 with ⟨hs1, hv, hw2⟩ | ⟨hs1, hv, log, text, -, -, hw2⟩
    · -- the vertex stage compiled
      by_cases hvs : vs = 0
      · rw [if_pos hvs] at h
        simp only [Outcome.ok.injEq] at h
        refine ⟨"", _, ?_, Or.inl ⟨h.1.symm, by rw [← hv, hvs], hs1, rfl⟩⟩
        rw [cerrWrite_empty, ← h.2, hw2]; rfl
      · rw [if_neg hvs] at h
        cases h2 : Compile d GL_FRAGMENT_SHADER .fragmentShaderSource w2 with
        | running w3 => exact absurd h2 (Compile_not_running _ _ _ _ _)
        | fault w3 => rw [h2] at h; cases h
        | ok fs w3 =>
          rw [h2] at h
          simp only [Outcome.bind] at h
          rcases Compile_ok _ _ _ _ _ _ h2 with ⟨hs2, hf, hw3⟩ | ⟨hs2, hf, log, text, -, -, hw3⟩
          · by_cases hfs : fs = 0
            · rw [if_pos hfs] at h
              simp only [Outcome.ok.injEq] at h
              refine ⟨"", _, ?_, Or.inr (Or.inr (Or.inl
                ⟨h.1.symm, by rw [← hv]; exact hvs, hs1, by rw [← hf, hfs], hs2, rfl⟩))⟩
              rw [cerrWrite_empty, ← h.2, hw3, hw2, hv]
              simp only [emit_eq_extend, cerrWrite_extend, extend_extend]
              simp [compileCalls]
            · rw [if_neg hfs] at h
              cases h3 : Link d vs fs w3 with
              | running w4 => exact absurd h3 (Link_not_running _ _ _ _ _)
              | fault w4 => rw [h3] at h; cases h
              | ok p w4 =>
                rw [h3] at h
                simp only [Outcome.bind, Outcome.ok.injEq] at h
                rcases Link_ok _ _ _ _ _ _ h3 with ⟨hs3, hp, hw4⟩ | ⟨hs3, hp, log, text, -, -, hw4⟩
                · refine ⟨"", _, ?_, Or.inr (Or.inr (Or.inr (Or.inr (Or.inl
                    ⟨by rw [← h.1, hp], rfl, by rw [← hv]; exact hvs, hs1,
                     by rw [← hf]; exact hfs, hs2, hs3, rfl⟩))))⟩
                  rw [cerrWrite_empty, ← h.2, hw4, hw3, hw2, hv, hf]
                  simp only [emit_eq_extend, cerrWrite_extend, extend_extend]
                  simp [successCalls, compileCalls, linkCalls]
                · refine ⟨"Program link error:\n" ++ String.mk text ++ "\n", _, ?_,
                    Or.inr (Or.inr (Or.inr (Or.inr (Or.inr
                    ⟨by rw [← h.1, hp], by rw [← hv]; exact hvs, hs1,
                     by rw [← hf]; exact hfs, hs2, hs3, rfl⟩))))⟩
                  rw [← h.2, hw4, hw3, hw2, hv, hf]
                  simp only [emit_eq_extend, cerrWrite_extend, extend_extend]
                  simp [compileCalls, linkFailCalls, linkCalls]
          · rw [hf, if_pos rfl] at h
            simp only [Outcome.ok.injEq] at h
            refine ⟨(if GL_FRAGMENT_SHADER = GL_VERTEX_SHADER then "Vertex" else "Fragment")
                ++ " shader compile error:\n" ++ String.mk text ++ "\n", _, ?_,
              Or.inr (Or.inr (Or.inr (Or.inl
              ⟨h.1.symm, by rw [← hv]; exact hvs, hs1, hs2, rfl⟩)))⟩
            rw [← h.2, hw3, hw2, hv]
            simp only [emit_eq_extend, cerrWrite_extend, extend_extend]
            simp [compileCalls, compileFailCalls]
    · -- the vertex stage failed and Compile returned 0
      rw [hv, if_pos rfl] at h
      simp only [Outcome.ok.injEq] at h
      refine ⟨(if GL_VERTEX_SHADER = GL_VERTEX_SHADER then "Vertex" else "Fragment")
          ++ " shader compile error:\n" ++ String.mk text ++ "\n", _, ?_,
        Or.inr (Or.inl ⟨h.1.symm, hs1, rfl⟩)⟩
      rw [← h.2, hw2]
      simp [compileCalls, compileFailCalls]

/-- C2: when `CreateTriangle` returns, the objects created during the call and not
deleted are none when the result is 0 and exactly the returned program when the
result is nonzero; and no object has been deleted twice during the call, the driver
having named the two shader objects differently. -/
theorem CreateTriangle_objects (d : Driver) (w w1 : World) (r : Nat)
    (h : CreateTriangle d w = .ok r w1) :
    ∃ c dl, w1.gl.created = w.gl.created ++ c ∧ w1.gl.deleted = w.gl.deleted ++ dl
      ∧ c.filter (fun o => decide (o ∉ dl)) = (if r = 0 then [] else [Obj.program r])
      ∧ (d.createShader GL_VERTEX_SHADER ≠ d.createShader GL_FRAGMENT_SHADER → dl.Nodup) := by
  obtain ⟨t, cs, hw, hcases⟩ := CreateTriangle_ok_cases d w w1 r h
  refine ⟨createdBy cs, deletedBy cs, ?_, ?_, ?_, ?_⟩
  · rw [hw]; simp [World.extend, cerrWrite, after_created]
  · rw [hw]; simp [World.extend, cerrWrite, after_deleted]
  · rcases hcases with ⟨hr, h0, -, rfl⟩ | ⟨hr, -, rfl⟩ | ⟨hr, hv, -, hf, -, rfl⟩ |
      ⟨hr, hv, -, -, rfl⟩ | ⟨hr, -, hv, -, hf, -, -, rfl⟩ | ⟨hr, hv, -, hf, -, -, rfl⟩
    all_goals
      simp only [successCalls, compileCalls, compileFailCalls, linkCalls, linkFailCalls,
        deletedBy, createdBy, Call.deletes, Call.creates, List.cons_append, List.nil_append,
        List.append_nil]
    all_goals clear hw h
    all_goals subst hr
    all_goals (try split_ifs)
    all_goals simp_all [List.filter, eq_comm]
  · intro hne
    rcases hcases with ⟨-, h0, -, rfl⟩ | ⟨-, -, rfl⟩ | ⟨-, hv, -, hf, -, rfl⟩ |
      ⟨-, hv, -, -, rfl⟩ | ⟨-, -, hv, -, hf, -, -, rfl⟩ | ⟨-, hv, -, hf, -, -, rfl⟩
    all_goals
      simp only [successCalls, compileCalls, compileFailCalls, linkCalls, linkFailCalls,
        deletedBy, Call.deletes, List.cons_append, List.nil_append, List.append_nil]
    all_goals clear hw h
    all_goals (try split_ifs)
    all_goals simp_all [eq_comm]

theorem iteration_eq (env : Env) (window program i : Nat) (w : World) :
    iteration env window program i w
      = w.extend (frameCalls env window program i w.gl.shouldClose) := by
  simp only [iteration, processInput]
  by_cases hk : env.key i = GLFW_PRESS
  · simp only [hk, if_true, emit_eq_extend, extend_extend]
    simp [frameCalls, hk, World.extend, GLState.after, GLState.apply]
  · simp only [hk, if_false, emit_eq_extend, extend_extend]
    simp [frameCalls, hk, World.extend, GLState.after, GLState.apply]

theorem iteration_flag (env : Env) (window program i : Nat) (w : World) :
    (iteration env window program i w).gl.shouldClose = frameFlag env i w.gl.shouldClose := by
  rw [iteration_eq]
  by_cases hk : env.key i = GLFW_PRESS <;>
    simp [frameCalls, frameFlag, hk, World.extend, GLState.after, GLState.apply]

theorem renderLoop_eq (env : Env) (window program : Nat) (fuel i : Nat) (w : World) :
    renderLoop env window program fuel i w
      = if loopExits env fuel i w.gl.shouldClose
        then .ok () (w.extend (loopCalls env window program fuel i w.gl.shouldClose))
        else .running (w.extend (loopCalls env window program fuel i w.gl.shouldClose)) := by
  induction fuel generalizing i w with
  | zero =>
    simp only [renderLoop, loopExits, loopCalls, emit_eq_extend]
  | succ n ih =>
    simp only [renderLoop, loopExits, loopCalls, emit_eq_extend]
    by_cases hb : w.gl.shouldClose = true
    · simp [hb]
    · have hb2 : w.gl.shouldClose = false := by simpa using hb
      simp only [hb2, if_false, Bool.false_eq_true]
      rw [ih, iteration_flag, iteration_eq, extend_extend, extend_extend]
      have hf : (w.extend [Call.glfwWindowShouldClose window false]).gl.shouldClose = false := by
        simp [World.extend, GLState.after, GLState.apply, hb2]
      rw [hf]
      simp

theorem after_append (s : GLState) (a b : List Call) :
    s.after (a ++ b) = (s.after a).after b := by
  simp [GLState.after, List.foldl_append]

theorem apply_flag (c : Call) (s : GLState)
    (h : c.api ∉ [Api.glfwSetWindowShouldClose, Api.glfwSwapBuffers, Api.glfwPollEvents]) :
    (s.apply c).shouldClose = s.shouldClose := by
  cases c <;> simp [Call.api] at h <;>
    simp [GLState.apply, GLState.create, GLState.delete, GLState.glViewport] <;>
    split <;> rfl

theorem after_flag (cs : List Call) (s : GLState)
    (h : ∀ c ∈ cs,
      c.api ∉ [Api.glfwSetWindowShouldClose, Api.glfwSwapBuffers, Api.glfwPollEvents]) :
    (s.after cs).shouldClose = s.shouldClose := by
  induction cs generalizing s with
  | nil => rfl
  | cons c cs ih =>
    have h1 := ih (s.apply c) (fun x hx => h x (List.mem_cons_of_mem _ hx))
    simp only [GLState.after, List.foldl_cons] at h1 ⊢
    rw [h1, apply_flag c s (h c (List.mem_cons_self _ _))]

theorem successCalls_inShaderModule (d : Driver) :
    ∀ c ∈ successCalls d, c.inShaderModule = true := by
  simp [successCalls, compileCalls, linkCalls, Call.inShaderModule]

theorem CreateTriangle_ok_nonzero (d : Driver) (w w1 : World) (p : Nat)
    (h : CreateTriangle d w = .ok p w1) (hp : p ≠ 0) :
    p = d.createProgram ∧ w1 = w.extend (successCalls d)
      ∧ d.createShader GL_VERTEX_SHADER ≠ 0 ∧ d.createShader GL_FRAGMENT_SHADER ≠ 0
      ∧ d.compileStatus GL_VERTEX_SHADER ≠ 0 ∧ d.compileStatus GL_FRAGMENT_SHADER ≠ 0
      ∧ d.linkStatus ≠ 0 := by
  obtain ⟨t, cs, hw, hc⟩ := CreateTriangle_ok_cases d w w1 p h
  rcases hc with ⟨hr, -⟩ | ⟨hr, -⟩ | ⟨hr, -⟩ | ⟨hr, -⟩ |
    ⟨hr, ht, hv, hs1, hf, hs2, hs3, hcs⟩ | ⟨hr, -⟩
  · exact absurd hr hp
  · exact absurd hr hp
  · exact absurd hr hp
  · exact absurd hr hp
  · subst ht hcs
    rw [cerrWrite_empty] at hw
    exact ⟨hr, hw, hv, hf, hs1, hs2, hs3⟩
  · exact absurd hr hp

theorem main_cases (env : Env) (fuel : Nat) :
    (env.glfwInit = 0
      ∧ main env fuel = .ok (-1)
          ((cerrWrite "GLFW init failed\n" World.init).extend [.glfwInit env.glfwInit]))
    ∨ (env.glfwInit ≠ 0 ∧ env.createWindow = 0
      ∧ main env fuel = .ok (-1)
          ((cerrWrite "Failed to create GLFW window\n" World.init).extend
            [.glfwInit env.glfwInit,
             .glfwWindowHint GLFW_CONTEXT_VERSION_MAJOR 3,
             .glfwWindowHint GLFW_CONTEXT_VERSION_MINOR 3,
             .glfwWindowHint GLFW_OPENGL_PROFILE GLFW_OPENGL_CORE_PROFILE,
             .glfwCreateWindow 540 480 "Triangle" env.createWindow,
             .glfwTerminate]))
    ∨ (env.glfwInit ≠ 0 ∧ env.createWindow ≠ 0 ∧ env.gladLoad = 0
      ∧ main env fuel = .ok (-1)
          ((cerrWrite "Failed to initialize GLAD\n" World.init).extend
            (startupCalls env ++ [.glfwTerminate])))
    ∨ (env.glfwInit ≠ 0 ∧ env.createWindow ≠ 0 ∧ env.gladLoad ≠ 0
      ∧ ∃ wf, CreateTriangle env.driver (World.init.extend (startupCalls env)) = .fault wf
        ∧ main env fuel = .fault wf)
    ∨ (env.glfwInit ≠ 0 ∧ env.createWindow ≠ 0 ∧ env.gladLoad ≠ 0
      ∧ ∃ w1, CreateTriangle env.driver (World.init.extend (startupCalls env)) = .ok 0 w1
        ∧ main env fuel = .ok (-1) (w1.extend [.glfwTerminate]))
    ∨ (env.glfwInit ≠ 0 ∧ env.createWindow ≠ 0 ∧ env.gladLoad ≠ 0
      ∧ env.driver.createProgram ≠ 0
      ∧ CreateTriangle env.driver (World.init.extend (startupCalls env))
          = .ok env.driver.createProgram
              (World.init.extend (startupCalls env ++ successCalls env.driver))
      ∧ main env fuel =
          if loopExits env fuel 0 false then
            .ok 0 (World.init.extend (runCalls env fuel ++
              [.glDeleteVertexArrays 1 (env.driver.genVertexArray.getD 0),
               .glDeleteProgram env.driver.createProgram, .glfwTerminate]))
          else .running (World.init.extend (runCalls env fuel))) := by
  by_cases h1 : env.glfwInit = 0
  · left
    refine ⟨h1, ?_⟩
    simp only [main, h1, if_true, emit_eq_extend, cerrWrite_extend]
  right
  by_cases h2 : env.createWindow = 0
  · left
    refine ⟨h1, h2, ?_⟩
    simp only [main, h1, h2, if_true, if_false, emit_eq_extend, cerrWrite_extend, extend_extend]
    rfl
  right
  by_cases h3 : env.gladLoad = 0
  · left
    refine ⟨h1, h2, h3, ?_⟩
    simp only [main, h1, h2, h3, if_true, if_false, emit_eq_extend, cerrWrite_extend,
      extend_extend]
    simp [startupCalls, h3]
  right
  have hm : main env fuel = (CreateTriangle env.driver (World.init.extend (startupCalls env))).bind
      fun program w =>
        if program = 0 then .ok (-1) (w.extend [.glfwTerminate])
        else
          (renderLoop env env.createWindow program fuel 0
            (w.extend [.glGenVertexArrays 1 (env.driver.genVertexArray.getD 0),
              .glBindVertexArray (env.driver.genVertexArray.getD 0)])).bind fun _ w =>
              .ok 0 (w.extend [.glDeleteVertexArrays 1 (env.driver.genVertexArray.getD 0),
                .glDeleteProgram program, .glfwTerminate]) := by
    simp only [main, h1, h2, h3, if_false, emit_eq_extend, extend_extend, DestroyTriangle]
    congr 1
    funext program w
    by_cases hp : program = 0
    · simp [hp]
    · simp only [hp, if_false, ne_eq, not_false_eq_true, if_true, extend_extend]
      rfl
  cases hct : CreateTriangle env.driver (World.init.extend (startupCalls env)) with
  | running w2 => exact absurd hct (CreateTriangle_not_running _ _ _)
  | fault wf =>
    left
    exact ⟨h1, h2, h3, wf, rfl, by rw [hm, hct]; rfl⟩
  | ok p w1 =>
    right
    by_cases hp : p = 0
    · left
      subst hp
      exact ⟨h1, h2, h3, w1, rfl, by rw [hm, hct]; simp [Outcome.bind]⟩
    · right
      obtain ⟨hpe, hw1, -⟩ := CreateTriangle_ok_nonzero _ _ _ _ hct hp
      subst hpe
      refine ⟨h1, h2, h3, hp, ?_, ?_⟩
      · rw [hw1, extend_extend]
      · rw [hm, hct]
        simp only [Outcome.bind, hp, if_false]
        rw [renderLoop_eq, hw1]
        have hflag : (((World.init.extend (startupCalls env)).extend
            (successCalls env.driver)).extend
              [.glGenVertexArrays 1 (env.driver.genVertexArray.getD 0),
               .glBindVertexArray (env.driver.genVertexArray.getD 0)]).gl.shouldClose
              = false := by
          simp only [extend_extend]
          show (GLState.init.after _).shouldClose = false
          rw [after_flag]
          · rfl
          · simp [startupCalls, successCalls, compileCalls, linkCalls, Call.api]
        rw [hflag]
        by_cases hx : loopExits env fuel 0 false = true
        · simp only [hx, if_true, extend_extend, runCalls, List.append_assoc]
        · simp [hx, extend_extend, runCalls]

/-! ## Runs of `main` -/

theorem inShaderModule_setup (c : Call) (h : c.inShaderModule = true) : c.api ∈ setupApis := by
  cases c <;> simp [Call.inShaderModule] at h <;> simp [Call.api, setupApis]

theorem startupCalls_setup (env : Env) : ∀ c ∈ startupCalls env, c.api ∈ setupApis := by
  simp [startupCalls, Call.api, setupApis]

theorem loopExits_mono (env : Env) (n fuel i : Nat) (b : Bool) (hn : n ≤ fuel)
    (h : loopExits env n i b = true) : loopExits env fuel i b = true := by
  induction n generalizing fuel i b with
  | zero =>
    simp only [loopExits] at h
    cases fuel with
    | zero => simpa [loopExits] using h
    | succ m => simp [loopExits, h]
  | succ k ih =>
    cases fuel with
    | zero => omega
    | succ m =>
      simp only [loopExits] at h ⊢
      by_cases hb : b = true
      · simp [hb]
      · simp only [hb, if_false, Bool.false_eq_true] at h ⊢
        exact ih m (i + 1) _ (by omega) h

/-- Runs of `main` that do not reach the render loop make set-up calls only. -/
theorem main_setup_trace (env : Env) (fuel : Nat)
    (h : (∃ w, main env fuel = .ok (-1) w) ∨ (∃ w, main env fuel = .fault w)) :
    ∀ c ∈ (main env fuel).world.trace, c.api ∈ setupApis := by
  rcases main_cases env fuel with ⟨-, hm⟩ | ⟨-, -, hm⟩ | ⟨-, -, -, hm⟩ |
    ⟨-, -, -, wf, hct, hm⟩ | ⟨-, -, -, w1, hct, hm⟩ | ⟨-, -, -, -, -, hm⟩
  · rw [hm]; simp [Outcome.world, World.extend, cerrWrite, World.init, Call.api, setupApis]
  · rw [hm]; simp [Outcome.world, World.extend, cerrWrite, World.init, Call.api, setupApis]
  · rw [hm]
    simp [Outcome.world, World.extend, cerrWrite, World.init, Call.api, setupApis,
      startupCalls]
  · obtain ⟨t, cs, hw, hcs⟩ := CreateTriangle_world env.driver
      (World.init.extend (startupCalls env))
    rw [hct] at hw
    rw [hm]
    simp only [Outcome.world] at hw ⊢
    rw [hw]
    intro c hc
    simp only [World.extend, cerrWrite, World.init, List.nil_append, List.mem_append] at hc
    rcases hc with hc | hc
    · exact startupCalls_setup env c hc
    · exact inShaderModule_setup c (hcs c hc)
  · obtain ⟨t, cs, hw, hcs⟩ := CreateTriangle_world env.driver
      (World.init.extend (startupCalls env))
    rw [hct] at hw
    rw [hm]
    simp only [Outcome.world] at hw ⊢
    rw [hw]
    intro c hc
    simp only [World.extend, cerrWrite, World.init, List.nil_append, List.mem_append,
      List.mem_singleton] at hc
    rcases hc with (hc | hc) | hc
    · exact startupCalls_setup env c hc
    · exact inShaderModule_setup c (hcs c hc)
    · subst hc; simp [Call.api, setupApis]
  · exfalso
    rcases h with ⟨w, hw⟩ | ⟨w, hw⟩
    · rw [hm] at hw; split at hw <;> cases hw
    · rw [hm] at hw; split at hw <;> cases hw

/-- C4: when GLFW initialisation, window creation, the GL loader or `CreateTriangle`
fails, main returns -1 and its trace holds no `glClear`, `glDrawArrays` or
`glfwSwapBuffers` call; when all four succeed, main does not fault, returns nothing
but 0, and returns 0 for every iteration budget at least as large as one within which
the loop has exited. -/
theorem main_exit_code (env : Env) (fuel : Nat) :
    ((env.glfwInit = 0 ∨ env.createWindow = 0 ∨ env.gladLoad = 0
        ∨ (∃ w0 w1, CreateTriangle env.driver w0 = .ok 0 w1)) →
      ∃ w, main env fuel = .ok (-1) w
        ∧ ∀ c ∈ w.trace, c.api ≠ .glClear ∧ c.api ≠ .glDrawArrays ∧ c.api ≠ .glfwSwapBuffers)
    ∧ ((env.glfwInit ≠ 0 ∧ env.createWindow ≠ 0 ∧ env.gladLoad ≠ 0
        ∧ ∃ p w0 w1, p ≠ 0 ∧ CreateTriangle env.driver w0 = .ok p w1) →
      (∀ w, main env fuel ≠ .fault w) ∧ (∀ c w, main env fuel = .ok c w → c = 0)
        ∧ ∀ n, n ≤ fuel → (∀ w, main env n ≠ .running w) → ∃ w, main env fuel = .ok 0 w) := by
  constructor
  · intro h
    have key : ∃ w, main env fuel = .ok (-1) w := by
      rcases main_cases env fuel with ⟨-, hm⟩ | ⟨-, -, hm⟩ | ⟨-, -, -, hm⟩ |
        ⟨h1, h2, h3, wf, hct, -⟩ | ⟨-, -, -, w1, -, hm⟩ | ⟨h1, h2, h3, hp, hct, -⟩
      · exact ⟨_, hm⟩
      · exact ⟨_, hm⟩
      · exact ⟨_, hm⟩
      · exfalso
        rcases h with h | h | h | h
        · exact h1 h
        · exact h2 h
        · exact h3 h
        · obtain ⟨w0, w1, hw0⟩ := h
          obtain ⟨w2, hw1⟩ := CreateTriangle_indep _ _ (World.init.extend (startupCalls env))
            _ _ hw0
          rw [hct] at hw1; cases hw1
      · exact ⟨_, hm⟩
      · exfalso
        rcases h with h | h | h | h
        · exact h1 h
        · exact h2 h
        · exact h3 h
        · obtain ⟨w0, w1, hw0⟩ := h
          obtain ⟨w2, hw1⟩ := CreateTriangle_indep _ _ (World.init.extend (startupCalls env))
            _ _ hw0
          rw [hct] at hw1
          simp only [Outcome.ok.injEq] at hw1
          exact hp hw1.1
    obtain ⟨w, hw⟩ := key
    refine ⟨w, hw, ?_⟩
    intro c hc
    have hs := main_setup_trace env fuel (Or.inl ⟨w, hw⟩) c (by rw [hw]; exact hc)
    refine ⟨?_, ?_, ?_⟩ <;> intro hapi <;> rw [hapi] at hs <;> simp [setupApis] at hs
  · rintro ⟨h1, h2, h3, p, w0, w3, hp, hct⟩
    obtain ⟨w1, hw1⟩ := CreateTriangle_indep _ _ (World.init.extend (startupCalls env))
      _ _ hct
    have hmain : ∀ k, ∃ wa wb, main env k =
        if loopExits env k 0 false then .ok 0 wa else .running wb := by
      intro k
      rcases main_cases env k with ⟨h, -⟩ | ⟨-, h, -⟩ | ⟨-, -, h, -⟩ |
        ⟨-, -, -, wf, hf, -⟩ | ⟨-, -, -, w2, hf, -⟩ | ⟨-, -, -, -, -, hm⟩
      · exact absurd h h1
      · exact absurd h h2
      · exact absurd h h3
      · rw [hw1] at hf; cases hf
      · rw [hw1] at hf
        simp only [Outcome.ok.injEq] at hf
        exact absurd hf.1 hp
      · exact ⟨_, _, hm⟩
    obtain ⟨wa, wb, hm⟩ := hmain fuel
    refine ⟨?_, ?_, ?_⟩
    · intro w hw
      rw [hm] at hw
      split at hw <;> cases hw
    · intro c w hw
      rw [hm] at hw
      split at hw
      · simp only [Outcome.ok.injEq] at hw
        exact hw.1.symm
      · cases hw
    · intro n hn hrun
      obtain ⟨wc, wd, hmn⟩ := hmain n
      have hex : loopExits env n 0 false = true := by
        by_contra hne
        rw [if_neg hne] at hmn
        exact hrun _ hmn
      rw [hm, if_pos (loopExits_mono env n fuel 0 false hn hex)]
      exact ⟨_, rfl⟩

theorem main_exit_code_witness :
    (∃ w, main linkFailEnv 3 = .ok (-1) w
      ∧ ∀ c ∈ w.trace, c.api ≠ .glClear ∧ c.api ≠ .glDrawArrays ∧ c.api ≠ .glfwSwapBuffers)
    ∧ (∃ w, main escEnv 5 = .ok 0 w) :=
  ⟨(main_exit_code linkFailEnv 3).1 (Or.inr (Or.inr (Or.inr ⟨World.init, _, rfl⟩))),
   ((main_exit_code escEnv 5).2
      ⟨by decide, by decide, by decide, 3, World.init, _, by decide, rfl⟩).2.2 2 (by decide)
      (fun w h => by
        have h2 : ∃ w2, main escEnv 2 = .ok 0 w2 := ⟨_, rfl⟩
        obtain ⟨w2, h2⟩ := h2
        rw [h2] at h
        cases h)⟩

/-! ## The render loop -/

/-- C5: in an iteration entered with the should-close flag unset in which
`glfwGetKey` reads `GLFW_PRESS`, and whose swap and poll leave a set flag set, the
flag is set by `processInput`, still set at the end of the iteration, and the loop
returns after exactly this iteration; and a loop whose condition finds the flag set
returns at once, having made no call but the `glfwWindowShouldClose` query. -/
theorem renderLoop_close (env : Env) (window program i fuel : Nat) (w : World) :
    (w.gl.shouldClose = false → env.key i = GLFW_PRESS →
      env.afterSwap i true = true → env.afterPoll i true = true →
        (processInput env window i
            (emit (.glfwWindowShouldClose window false) w)).gl.shouldClose = true
        ∧ (iteration env window program i
            (emit (.glfwWindowShouldClose window false) w)).gl.shouldClose = true
        ∧ renderLoop env window program (fuel + 1) i w
            = .ok () (emit (.glfwWindowShouldClose window true)
                (iteration env window program i
                  (emit (.glfwWindowShouldClose window false) w))))
    ∧ (w.gl.shouldClose = true →
        renderLoop env window program fuel i w
          = .ok () (emit (.glfwWindowShouldClose window true) w)) := by
  have part2 : ∀ (k j : Nat) (v : World), v.gl.shouldClose = true →
      renderLoop env window program k j v
        = .ok () (emit (.glfwWindowShouldClose window true) v) := by
    intro k j v hv
    cases k <;> simp [renderLoop, hv]
  refine ⟨?_, part2 fuel i w⟩
  intro hw hk hs hp
  have hflag : (iteration env window program i
      (emit (.glfwWindowShouldClose window false) w)).gl.shouldClose = true := by
    rw [iteration_flag]
    simp [frameFlag, hk, hs, hp]
  refine ⟨?_, hflag, ?_⟩
  · simp [processInput, hk, emit, GLState.apply]
  · simp only [renderLoop, hw, Bool.false_eq_true, if_false]
    exact part2 fuel (i + 1) _ hflag

theorem renderLoop_close_witness :
    (processInput escEnv 7 1
        (emit (.glfwWindowShouldClose 7 false) World.init)).gl.shouldClose = true
    ∧ (iteration escEnv 7 3 1
        (emit (.glfwWindowShouldClose 7 false) World.init)).gl.shouldClose = true
    ∧ renderLoop escEnv 7 3 (4 + 1) 1 World.init
        = .ok () (emit (.glfwWindowShouldClose 7 true)
            (iteration escEnv 7 3 1 (emit (.glfwWindowShouldClose 7 false) World.init))) :=
  (renderLoop_close escEnv 7 3 1 4 World.init).1 rfl rfl rfl rfl

theorem frameCalls_mem (env : Env) (window program i : Nat) (b : Bool) (c : Call)
    (h : c ∈ frameCalls env window program i b) :
    c.api ∈ renderApis ∧ (∀ q, c = .glUseProgram q → q = program) := by
  simp only [frameCalls, List.mem_append, List.mem_cons, List.mem_singleton,
    List.not_mem_nil, or_false] at h
  rcases h with (h | h) | h
  · subst h; simp [Call.api, renderApis]
  · split at h
    · simp only [List.mem_singleton] at h
      subst h; simp [Call.api, renderApis]
    · simp at h
  · rcases h with h | h | h | h | h | h <;> subst h <;> simp [Call.api, renderApis]

theorem loopCalls_mem (env : Env) (window program fuel i : Nat) (b : Bool) (c : Call)
    (h : c ∈ loopCalls env window program fuel i b) :
    c.api = .glfwWindowShouldClose
      ∨ (c.api ∈ renderApis ∧ (∀ q, c = .glUseProgram q → q = program)) := by
  induction fuel generalizing i b with
  | zero =>
    simp only [loopCalls, List.mem_singleton] at h
    subst h; left; rfl
  | succ n ih =>
    simp only [loopCalls, List.mem_cons] at h
    rcases h with h | h
    · subst h; left; rfl
    · split at h
      · simp at h
      · rcases List.mem_append.mp h with h | h
        · right; exact frameCalls_mem _ _ _ _ _ _ h
        · exact ih _ _ h

/-- The calls of a run that reaches the loop: set-up, the vertex array, the loop. -/
theorem runCalls_mem (env : Env) (fuel : Nat) (c : Call)
    (h : c ∈ runCalls env fuel ++
      [.glDeleteVertexArrays 1 (env.driver.genVertexArray.getD 0),
       .glDeleteProgram env.driver.createProgram, .glfwTerminate]) :
    c.api ∈ setupApis
      ∨ c.api ∈ [Api.glGenVertexArrays, Api.glBindVertexArray, Api.glDeleteVertexArrays]
      ∨ c.api = .glfwWindowShouldClose
      ∨ (c.api ∈ renderApis ∧ (∀ q, c = .glUseProgram q → q = env.driver.createProgram)) := by
  simp only [runCalls, List.mem_append, List.mem_cons, List.mem_singleton,
    List.not_mem_nil, or_false] at h
  rcases h with (((h | h) | h) | h) | h
  · left; exact startupCalls_setup env c h
  · left; exact inShaderModule_setup c (successCalls_inShaderModule _ c h)
  · right; left; rcases h with h | h <;> subst h <;> simp [Call.api]
  · right; right; exact loopCalls_mem _ _ _ _ _ _ _ h
  · rcases h with h | h | h
    · right; left; subst h; simp [Call.api]
    · left; subst h; simp [Call.api, setupApis]
    · left; subst h; simp [Call.api, setupApis]

theorem main_trace_mem (env : Env) (fuel : Nat) (c : Call)
    (h : c ∈ (main env fuel).world.trace) :
    c.api ∈ setupApis
      ∨ (env.driver.createProgram ≠ 0
        ∧ (∃ w1, CreateTriangle env.driver (World.init.extend (startupCalls env))
            = .ok env.driver.createProgram w1)
        ∧ (c.api ∈ [Api.glGenVertexArrays, Api.glBindVertexArray, Api.glDeleteVertexArrays]
          ∨ c.api = .glfwWindowShouldClose
          ∨ (c.api ∈ renderApis
            ∧ (∀ q, c = .glUseProgram q → q = env.driver.createProgram)))) := by
  rcases main_cases env fuel with ⟨-, hm⟩ | ⟨-, -, hm⟩ | ⟨-, -, -, hm⟩ |
    ⟨-, -, -, wf, -, hm⟩ | ⟨-, -, -, w1, -, hm⟩ | ⟨-, -, -, hp, hct, hm⟩
  · exact Or.inl (main_setup_trace env fuel (Or.inl ⟨_, hm⟩) c h)
  · exact Or.inl (main_setup_trace env fuel (Or.inl ⟨_, hm⟩) c h)
  · exact Or.inl (main_setup_trace env fuel (Or.inl ⟨_, hm⟩) c h)
  · exact Or.inl (main_setup_trace env fuel (Or.inr ⟨_, hm⟩) c h)
  · exact Or.inl (main_setup_trace env fuel (Or.inl ⟨_, hm⟩) c h)
  · have hc : c ∈ runCalls env fuel ++
        [.glDeleteVertexArrays 1 (env.driver.genVertexArray.getD 0),
         .glDeleteProgram env.driver.createProgram, .glfwTerminate] := by
      rw [hm] at h
      split at h
      · simpa [Outcome.world, World.extend, World.init] using h
      · simp only [Outcome.world, World.extend, World.init, List.nil_append] at h
        exact List.mem_append_left _ h
    rcases runCalls_mem env fuel c hc with h1 | h1
    · exact Or.inl h1
    · exact Or.inr ⟨hp, ⟨_, hct⟩, h1⟩

/-- C6: every pass through the loop body makes exactly these calls, in this order:
`glfwGetKey` for Escape, `glfwSetWindowShouldClose(window, true)` if and only if it
read `GLFW_PRESS`, `glClearColor(0, 0, 0, 1)`, `glClear(GL_COLOR_BUFFER_BIT)`,
`glUseProgram(program)`, `glDrawArrays(GL_TRIANGLES, 0, 6)`, `glfwSwapBuffers`,
`glfwPollEvents`, whether or not Escape was read; the loop runs this body in every
iteration; and in a run of main every `glUseProgram` carries the nonzero handle that
`CreateTriangle` returned. -/
theorem iteration_calls (env : Env) (window program i : Nat) (w : World) :
    (iteration env window program i w).trace = w.trace ++
        ([Call.glfwGetKey window GLFW_KEY_ESCAPE (env.key i)]
          ++ (if env.key i = GLFW_PRESS then [Call.glfwSetWindowShouldClose window true]
              else [])
          ++ [.glClearColor 0 0 0 1, .glClear GL_COLOR_BUFFER_BIT, .glUseProgram program,
              .glDrawArrays GL_TRIANGLES 0 6,
              .glfwSwapBuffers window
                (env.afterSwap i (if env.key i = GLFW_PRESS then true else w.gl.shouldClose)),
              .glfwPollEvents
                (env.afterPoll i (env.afterSwap i
                  (if env.key i = GLFW_PRESS then true else w.gl.shouldClose)))
                (env.resizes i)])
    ∧ (∀ fuel, w.gl.shouldClose = false →
        renderLoop env window program (fuel + 1) i w
          = renderLoop env window program fuel (i + 1)
              (iteration env window program i (emit (.glfwWindowShouldClose window false) w)))
    ∧ (∀ fuel q, Call.glUseProgram q ∈ (main env fuel).world.trace →
        q ≠ 0 ∧ ∃ w0 w1, CreateTriangle env.driver w0 = .ok q w1) := by
  refine ⟨?_, ?_, ?_⟩
  · rw [iteration_eq]
    rfl
  · intro fuel hw
    simp [renderLoop, hw]
  · intro fuel q hq
    rcases main_trace_mem env fuel _ hq with h | ⟨hp, ⟨w1, hct⟩, h⟩
    · simp [Call.api, setupApis] at h
    · rcases h with h | h | ⟨-, h⟩
      · simp [Call.api] at h
      · simp [Call.api] at h
      · have hqe := h q rfl
        subst hqe
        exact ⟨hp, _, _, hct⟩

theorem iteration_calls_witness :
    (iteration escEnv 7 3 1 World.init).trace =
      [.glfwGetKey 7 GLFW_KEY_ESCAPE 1, .glfwSetWindowShouldClose 7 true,
       .glClearColor 0 0 0 1, .glClear GL_COLOR_BUFFER_BIT, .glUseProgram 3,
       .glDrawArrays GL_TRIANGLES 0 6, .glfwSwapBuffers 7 true, .glfwPollEvents true []]
    ∧ (renderLoop escEnv 7 3 (1 + 1) 0 World.init
        = renderLoop escEnv 7 3 1 (0 + 1)
            (iteration escEnv 7 3 0 (emit (.glfwWindowShouldClose 7 false) World.init)))
    ∧ (3 ≠ 0 ∧ ∃ w0 w1, CreateTriangle escEnv.driver w0 = .ok 3 w1) :=
  ⟨(iteration_calls escEnv 7 3 1 World.init).1,
   (iteration_calls escEnv 7 3 0 World.init).2.1 1 rfl,
   (iteration_calls escEnv 7 3 0 World.init).2.2 5 3 (by decide)⟩

/-! ## The shader module -/

/-- C3: `DestroyTriangle(p)` makes no call when `p` is 0 (the world is unchanged) and
otherwise makes exactly one call, `glDeleteProgram(p)`; it writes nothing to standard
error. -/
theorem DestroyTriangle_calls (program : Nat) (w : World) :
    (DestroyTriangle program w).trace
        = w.trace ++ (if program = 0 then [] else [Call.glDeleteProgram program])
      ∧ (DestroyTriangle program w).cerr = w.cerr
      ∧ DestroyTriangle 0 w = w := by
  refine ⟨?_, ?_, ?_⟩
  · by_cases h : program = 0 <;> simp [DestroyTriangle, h, emit]
  · by_cases h : program = 0 <;> simp [DestroyTriangle, h, emit]
  · simp [DestroyTriangle]

/-- C7: `framebuffer_size_callback(window, width, height)` sets the viewport to
origin (0, 0) and size (width, height) and leaves the program binding, the vertex
array binding, the clear colour, the should-close flag, the registered callback and
the created, deleted and live objects as they were. -/
theorem framebuffer_size_callback_frame (width height : Int) (s : GLState) :
    (framebuffer_size_callback width height s).viewport = (0, 0, width, height)
      ∧ (framebuffer_size_callback width height s).currentProgram = s.currentProgram
      ∧ (framebuffer_size_callback width height s).boundVAO = s.boundVAO
      ∧ (framebuffer_size_callback width height s).clearColor = s.clearColor
      ∧ (framebuffer_size_callback width height s).shouldClose = s.shouldClose
      ∧ (framebuffer_size_callback width height s).sizeCallback = s.sizeCallback
      ∧ (framebuffer_size_callback width height s).created = s.created
      ∧ (framebuffer_size_callback width height s).deleted = s.deleted
      ∧ (framebuffer_size_callback width height s).live = s.live := by
  simp [framebuffer_size_callback, GLState.glViewport, GLState.live]

/-- C10, at a failing compile for which the driver reports `GL_INFO_LOG_LENGTH` 0:
the log vector is empty, reading `log.data()` as a C string is undefined, and
`Compile` stops there: after the stage name and ` shader compile error:` it writes
neither the log nor the final newline, does not delete the shader and does not
return 0. -/
theorem Compile_empty_log_fault :
    silentDriver.compileStatus GL_VERTEX_SHADER = 0
      ∧ silentDriver.getShaderiv (silentDriver.createShader GL_VERTEX_SHADER)
          GL_INFO_LOG_LENGTH = some 0
      ∧ vectorChar 0 = some []
      ∧ cString (writeInfoLog (silentDriver.shaderInfoLog 1) 0 []) = none
      ∧ Compile silentDriver GL_VERTEX_SHADER .vertexShaderSource World.init
        = .fault
            { gl := { GLState.init with created := [.shader 1] }
              trace := [.glCreateShader GL_VERTEX_SHADER 1,
                        .glShaderSource 1 .vertexShaderSource,
                        .glCompileShader 1,
                        .glGetShaderiv 1 GL_COMPILE_STATUS,
                        .glGetShaderiv 1 GL_INFO_LOG_LENGTH,
                        .glGetShaderInfoLog 1 0]
              cerr := "Vertex shader compile error:\n" } := by
  refine ⟨by decide, by decide, by decide, by decide, by decide⟩

/-- C1, at a driver with nonzero names whose vertex stage fails to compile and which
reports an info log of length 0: `CreateTriangle` does not return 0, it stops in the
undefined read of the empty log buffer inside `Compile`, with the vertex shader
object still alive. -/
theorem CreateTriangle_empty_log_fault :
    silentDriver.createShader GL_VERTEX_SHADER ≠ 0
      ∧ silentDriver.createShader GL_FRAGMENT_SHADER ≠ 0
      ∧ silentDriver.createProgram ≠ 0
      ∧ silentDriver.compileStatus GL_VERTEX_SHADER = 0
      ∧ (∀ r w, CreateTriangle silentDriver World.init ≠ .ok r w)
      ∧ ∃ w, CreateTriangle silentDriver World.init = .fault w ∧ w.gl.live = [.shader 1] := by
  refine ⟨by decide, by decide, by decide, by decide, ?_, ⟨_, rfl, by decide⟩⟩
  intro r w h
  have h2 : ∃ w2, CreateTriangle silentDriver World.init = .fault w2 := ⟨_, rfl⟩
  obtain ⟨w2, h2⟩ := h2
  rw [h2] at h
  cases h

theorem CreateTriangle_objects_witness :
    ∃ w1, CreateTriangle linkFailDriver World.init = .ok 0 w1
      ∧ ∃ c dl, w1.gl.created = World.init.gl.created ++ c
        ∧ w1.gl.deleted = World.init.gl.deleted ++ dl
        ∧ c.filter (fun o => decide (o ∉ dl)) = (if 0 = 0 then [] else [Obj.program 0])
        ∧ (linkFailDriver.createShader GL_VERTEX_SHADER
            ≠ linkFailDriver.createShader GL_FRAGMENT_SHADER → dl.Nodup) :=
  ⟨_, rfl, CreateTriangle_objects linkFailDriver World.init _ 0 rfl⟩

/-! ## Objects and bindings along a run -/

theorem createdBy_append (a b : List Call) : createdBy (a ++ b) = createdBy a ++ createdBy b := by
  induction a with
  | nil => rfl
  | cons c a ih => simp [createdBy, ih]

theorem deletedBy_append (a b : List Call) : deletedBy (a ++ b) = deletedBy a ++ deletedBy b := by
  induction a with
  | nil => rfl
  | cons c a ih => simp [deletedBy, ih]

theorem creates_of_api (c : Call)
    (h : c.api ∉ [Api.glCreateShader, Api.glCreateProgram, Api.glGenVertexArrays]) :
    c.creates = [] := by
  cases c <;> simp [Call.api] at h <;> rfl

theorem deletes_of_api (c : Call)
    (h : c.api ∉ [Api.glDeleteShader, Api.glDeleteProgram, Api.glDeleteVertexArrays]) :
    c.deletes = [] := by
  cases c <;> simp [Call.api] at h <;> rfl

theorem createdBy_eq_nil (cs : List Call) (h : ∀ c ∈ cs, c.creates = []) : createdBy cs = [] := by
  induction cs with
  | nil => rfl
  | cons c cs ih =>
    simp [createdBy, h c (List.mem_cons_self _ _),
      ih (fun x hx => h x (List.mem_cons_of_mem _ hx))]

theorem deletedBy_eq_nil (cs : List Call) (h : ∀ c ∈ cs, c.deletes = []) : deletedBy cs = [] := by
  induction cs with
  | nil => rfl
  | cons c cs ih =>
    simp [deletedBy, h c (List.mem_cons_self _ _),
      ih (fun x hx => h x (List.mem_cons_of_mem _ hx))]

theorem loopCalls_api (env : Env) (window program fuel i : Nat) (b : Bool) (c : Call)
    (h : c ∈ loopCalls env window program fuel i b) :
    c.api ∈ Api.glfwWindowShouldClose :: renderApis := by
  rcases loopCalls_mem _ _ _ _ _ _ _ h with h1 | ⟨h1, -⟩
  · rw [h1]; exact List.mem_cons_self _ _
  · exact List.mem_cons_of_mem _ h1

theorem loopCalls_created (env : Env) (window program fuel i : Nat) (b : Bool) :
    createdBy (loopCalls env window program fuel i b) = []
      ∧ deletedBy (loopCalls env window program fuel i b) = [] := by
  constructor
  · apply createdBy_eq_nil
    intro c hc
    apply creates_of_api
    have := loopCalls_api _ _ _ _ _ _ _ hc
    intro h
    simp only [renderApis, List.mem_cons, List.mem_singleton, List.not_mem_nil, or_false]
      at this h
    rcases h with h | h | h <;> rw [h] at this <;> simp at this
  · apply deletedBy_eq_nil
    intro c hc
    apply deletes_of_api
    have := loopCalls_api _ _ _ _ _ _ _ hc
    intro h
    simp only [renderApis, List.mem_cons, List.mem_singleton, List.not_mem_nil, or_false]
      at this h
    rcases h with h | h | h <;> rw [h] at this <;> simp at this

theorem count_api_eq_zero (cs : List Call) (a : Api) (h : ∀ c ∈ cs, c.api ≠ a) :
    (cs.map Call.api).count a = 0 := by
  apply List.count_eq_zero_of_not_mem
  intro hm
  obtain ⟨c, hc, hca⟩ := List.mem_map.mp hm
  exact h c hc hca

theorem loopCalls_count (env : Env) (window program fuel i : Nat) (b : Bool) (a : Api)
    (ha : a ∉ Api.glfwWindowShouldClose :: renderApis) :
    ((loopCalls env window program fuel i b).map Call.api).count a = 0 := by
  apply count_api_eq_zero
  intro c hc hca
  exact ha (hca ▸ loopCalls_api _ _ _ _ _ _ _ hc)

theorem runCalls_created (env : Env) (fuel : Nat)
    (hv : env.driver.createShader GL_VERTEX_SHADER ≠ 0)
    (hf : env.driver.createShader GL_FRAGMENT_SHADER ≠ 0)
    (hp : env.driver.createProgram ≠ 0) :
    createdBy (runCalls env fuel)
        = [.shader (env.driver.createShader GL_VERTEX_SHADER),
           .shader (env.driver.createShader GL_FRAGMENT_SHADER),
           .program env.driver.createProgram]
          ++ (Call.glGenVertexArrays 1 (env.driver.genVertexArray.getD 0)).creates
      ∧ deletedBy (runCalls env fuel)
        = [.shader (env.driver.createShader GL_VERTEX_SHADER),
           .shader (env.driver.createShader GL_FRAGMENT_SHADER)] := by
  simp only [runCalls, createdBy_append, deletedBy_append, loopCalls_created]
  simp [startupCalls, successCalls, compileCalls, linkCalls, createdBy, deletedBy,
    Call.creates, Call.deletes, hv, hf, hp]

theorem runCalls_count (env : Env) (fuel : Nat) (a : Api)
    (ha : a ∉ Api.glfwWindowShouldClose :: renderApis) :
    ((runCalls env fuel).map Call.api).count a
      = ((startupCalls env ++ successCalls env.driver
          ++ [Call.glGenVertexArrays 1 (env.driver.genVertexArray.getD 0),
              Call.glBindVertexArray (env.driver.genVertexArray.getD 0)]).map
            Call.api).count a := by
  simp only [runCalls, List.map_append, List.count_append, loopCalls_count _ _ _ _ _ _ a ha,
    Nat.add_zero]

theorem runCalls_counts (env : Env) (fuel : Nat) :
    ((runCalls env fuel).map Call.api).count .glGenVertexArrays = 1
      ∧ ((runCalls env fuel).map Call.api).count .glBindVertexArray = 1
      ∧ ((runCalls env fuel).map Call.api).count .glDeleteVertexArrays = 0
      ∧ ((runCalls env fuel).map Call.api).count .glDeleteProgram = 0
      ∧ ((runCalls env fuel).map Call.api).count .glfwTerminate = 0 := by
  refine ⟨?_, ?_, ?_, ?_, ?_⟩ <;> rw [runCalls_count _ _ _ (by simp [renderApis])] <;>
    simp [startupCalls, successCalls, compileCalls, linkCalls, Call.api]

theorem runCalls_split (env : Env) (fuel : Nat) :
    runCalls env fuel = (startupCalls env ++ successCalls env.driver)
      ++ [Call.glGenVertexArrays 1 (env.driver.genVertexArray.getD 0),
          Call.glBindVertexArray (env.driver.genVertexArray.getD 0)]
      ++ loopCalls env env.createWindow env.driver.createProgram fuel 0 false := rfl

theorem run_live_at_terminate (env : Env) (fuel : Nat)
    (hv : env.driver.createShader GL_VERTEX_SHADER ≠ 0)
    (hf : env.driver.createShader GL_FRAGMENT_SHADER ≠ 0)
    (hp : env.driver.createProgram ≠ 0) :
    (GLState.init.after (runCalls env fuel
      ++ [.glDeleteVertexArrays 1 (env.driver.genVertexArray.getD 0),
          .glDeleteProgram env.driver.createProgram])).live = [] := by
  obtain ⟨hc, hd⟩ := runCalls_created env fuel hv hf hp
  simp only [GLState.live, after_created, after_deleted, createdBy_append,
    deletedBy_append, hc, hd]
  by_cases hvao : env.driver.genVertexArray.getD 0 = 0
  · simp [GLState.init, createdBy, deletedBy, Call.creates, Call.deletes, hvao, hp]
  · simp [GLState.init, createdBy, deletedBy, Call.creates, Call.deletes, hvao, hp]

theorem startup_not_loop (env : Env) :
    ∀ c ∈ startupCalls env ++ successCalls env.driver,
      c.api ∉ Api.glfwWindowShouldClose :: renderApis := by
  simp [startupCalls, successCalls, compileCalls, linkCalls, Call.api, renderApis]

/-- C8: in a run of main that reaches the render loop, `glGenVertexArrays` and
`glBindVertexArray` are each called exactly once, for one vertex array, one right
after the other and before any call of the loop; when the loop has exited, the trace
ends with `glDeleteVertexArrays` for that vertex array, `glDeleteProgram` for the
program `CreateTriangle` returned, and `glfwTerminate`, each of the three called
exactly once in the run, and no object is live when `glfwTerminate` is called. -/
theorem main_vertex_array (env : Env) (fuel : Nat) (w : World) :
    (main env fuel = .running w ∨ main env fuel = .ok 0 w) →
      (w.trace.map Call.api).count .glGenVertexArrays = 1
      ∧ (w.trace.map Call.api).count .glBindVertexArray = 1
      ∧ ∃ pre rest vao,
          w.trace = pre ++ [.glGenVertexArrays 1 vao, .glBindVertexArray vao] ++ rest
          ∧ (∀ c ∈ pre, c.api ∉ Api.glfwWindowShouldClose :: renderApis)
          ∧ (main env fuel = .ok 0 w →
              ∃ loop p,
                rest = loop ++ [.glDeleteVertexArrays 1 vao, .glDeleteProgram p, .glfwTerminate]
                ∧ p ≠ 0 ∧ (∃ w0 w1, CreateTriangle env.driver w0 = .ok p w1)
                ∧ (w.trace.map Call.api).count .glDeleteVertexArrays = 1
                ∧ (w.trace.map Call.api).count .glDeleteProgram = 1
                ∧ (w.trace.map Call.api).count .glfwTerminate = 1
                ∧ (GLState.init.after
                    (pre ++ [.glGenVertexArrays 1 vao, .glBindVertexArray vao] ++ loop
                      ++ [.glDeleteVertexArrays 1 vao, .glDeleteProgram p])).live = []) := by
  intro h
  rcases main_cases env fuel with ⟨-, hm⟩ | ⟨-, -, hm⟩ | ⟨-, -, -, hm⟩ |
    ⟨-, -, -, wf, -, hm⟩ | ⟨-, -, -, w1, -, hm⟩ | ⟨-, -, -, hp, hct, hm⟩
  · rw [hm] at h; rcases h with h | h <;> simp at h
  · rw [hm] at h; rcases h with h | h <;> simp at h
  · rw [hm] at h; rcases h with h | h <;> simp at h
  · rw [hm] at h; rcases h with h | h <;> simp at h
  · rw [hm] at h; rcases h with h | h <;> simp at h
  · obtain ⟨-, -, hv, hf, -⟩ := CreateTriangle_ok_nonzero _ _ _ _ hct hp
    obtain ⟨c1, c2, c3, c4, c5⟩ := runCalls_counts env fuel
    by_cases hx : loopExits env fuel 0 false = true
    · rw [hm, if_pos hx] at h
      have hw : w = World.init.extend (runCalls env fuel ++
          [.glDeleteVertexArrays 1 (env.driver.genVertexArray.getD 0),
           .glDeleteProgram env.driver.createProgram, .glfwTerminate]) := by
        rcases h with h | h
        · cases h
        · simp only [Outcome.ok.injEq] at h
          exact h.2.symm
      have ht : w.trace = runCalls env fuel ++
          [.glDeleteVertexArrays 1 (env.driver.genVertexArray.getD 0),
           .glDeleteProgram env.driver.createProgram, .glfwTerminate] := by
        rw [hw]; simp [World.extend, World.init]
      refine ⟨?_, ?_, startupCalls env ++ successCalls env.driver,
        loopCalls env env.createWindow env.driver.createProgram fuel 0 false ++
          [.glDeleteVertexArrays 1 (env.driver.genVertexArray.getD 0),
           .glDeleteProgram env.driver.createProgram, .glfwTerminate],
        env.driver.genVertexArray.getD 0, ?_, startup_not_loop env, ?_⟩
      · rw [ht, List.map_append, List.count_append, c1]; simp [Call.api]
      · rw [ht, List.map_append, List.count_append, c2]; simp [Call.api]
      · rw [ht, runCalls_split]; simp only [List.append_assoc]
      · intro _
        refine ⟨_, env.driver.createProgram, rfl, hp, ⟨_, _, hct⟩, ?_, ?_, ?_, ?_⟩
        · rw [ht, List.map_append, List.count_append, c3]; simp [Call.api]
        · rw [ht, List.map_append, List.count_append, c4]; simp [Call.api]
        · rw [ht, List.map_append, List.count_append, c5]; simp [Call.api]
        · rw [← runCalls_split]
          exact run_live_at_terminate env fuel hv hf hp
    · rw [hm, if_neg hx] at h
      have hw : w = World.init.extend (runCalls env fuel) := by
        rcases h with h | h
        · simp only [Outcome.running.injEq] at h
          exact h.symm
        · cases h
      have ht : w.trace = runCalls env fuel := by
        rw [hw]; simp [World.extend, World.init]
      refine ⟨?_, ?_, startupCalls env ++ successCalls env.driver,
        loopCalls env env.createWindow env.driver.createProgram fuel 0 false,
        env.driver.genVertexArray.getD 0, ?_, startup_not_loop env, ?_⟩
      · rw [ht, c1]
      · rw [ht, c2]
      · rw [ht, runCalls_split]
      · intro h0
        rw [hm, if_neg hx] at h0
        cases h0

theorem main_vertex_array_witness :
    ((main escEnv 5).world.trace.map Call.api).count .glGenVertexArrays = 1
      ∧ ((main escEnv 5).world.trace.map Call.api).count .glBindVertexArray = 1 :=
  ⟨(main_vertex_array escEnv 5 (main escEnv 5).world (Or.inr rfl)).1,
   (main_vertex_array escEnv 5 (main escEnv 5).world (Or.inr rfl)).2.1⟩

theorem AllCalls_append (P : GLState → Call → Prop) (s : GLState) (a b : List Call) :
    AllCalls P s (a ++ b) ↔ AllCalls P s a ∧ AllCalls P (s.after a) b := by
  induction a generalizing s with
  | nil => simp [AllCalls, GLState.after]
  | cons c a ih =>
    show (P s c ∧ AllCalls P (s.apply c) (a ++ b)) ↔ _
    rw [ih]
    simp [AllCalls, GLState.after, and_assoc]

theorem AllCalls_of_forall (P : GLState → Call → Prop) (s : GLState) (cs : List Call)
    (h : ∀ c ∈ cs, ∀ st, P st c) : AllCalls P s cs := by
  induction cs generalizing s with
  | nil => trivial
  | cons c cs ih =>
    exact ⟨h c (List.mem_cons_self _ _) s, ih _ (fun x hx => h x (List.mem_cons_of_mem _ hx))⟩

theorem AllCalls_split (P : GLState → Call → Prop) (s : GLState) (pre post : List Call)
    (c : Call) (h : AllCalls P s (pre ++ c :: post)) : P (s.after pre) c := by
  rw [AllCalls_append] at h
  exact h.2.1

/-- While the program object `p` is alive, every draw call of the loop is made with
`p` bound. -/
theorem loopCalls_draws (env : Env) (window p fuel i : Nat) (b : Bool) (s : GLState)
    (hc : Obj.program p ∈ s.created) (hd : Obj.program p ∉ s.deleted) :
    AllCalls (fun st c => c.api = .glDrawArrays →
        st.currentProgram = p ∧ Obj.program p ∈ st.created ∧ Obj.program p ∉ st.deleted)
      s (loopCalls env window p fuel i b) := by
  induction fuel generalizing i b s with
  | zero => simp [loopCalls, AllCalls, Call.api]
  | succ n ih =>
    simp only [loopCalls, AllCalls]
    refine ⟨by simp [Call.api], ?_⟩
    by_cases hb : b = true
    · simp [hb, AllCalls]
    · simp only [hb, if_false, Bool.false_eq_true]
      rw [AllCalls_append]
      constructor
      · by_cases hk : env.key i = GLFW_PRESS <;>
          simp [frameCalls, hk, AllCalls, Call.api, GLState.apply, hc, hd]
      · have hdel : deletedBy (frameCalls env window p i false) = [] := by
          apply deletedBy_eq_nil
          intro c hcm
          apply deletes_of_api
          have := (frameCalls_mem _ _ _ _ _ _ hcm).1
          intro h2
          simp only [renderApis, List.mem_cons, List.mem_singleton, List.not_mem_nil,
            or_false] at this h2
          rcases h2 with h2 | h2 | h2 <;> rw [h2] at this <;> simp at this
        apply ih
        · rw [after_created, apply_created]
          exact List.mem_append_left _ (List.mem_append_left _ hc)
        · rw [after_deleted, apply_deleted, hdel]
          simpa [Call.deletes] using hd

theorem run_draws (env : Env) (fuel : Nat)
    (hv : env.driver.createShader GL_VERTEX_SHADER ≠ 0)
    (hf : env.driver.createShader GL_FRAGMENT_SHADER ≠ 0)
    (hp : env.driver.createProgram ≠ 0) :
    AllCalls (fun st c => c.api = .glDrawArrays →
        st.currentProgram = env.driver.createProgram
          ∧ Obj.program env.driver.createProgram ∈ st.created
          ∧ Obj.program env.driver.createProgram ∉ st.deleted)
      GLState.init
      (runCalls env fuel ++
        [.glDeleteVertexArrays 1 (env.driver.genVertexArray.getD 0),
         .glDeleteProgram env.driver.createProgram, .glfwTerminate]) := by
  rw [AllCalls_append, runCalls_split, AllCalls_append]
  refine ⟨⟨?_, ?_⟩, ?_⟩
  · apply AllCalls_of_forall
    simp [startupCalls, successCalls, compileCalls, linkCalls, Call.api]
  · apply loopCalls_draws
    · rw [after_created]
      simp [createdBy_append, startupCalls, successCalls, compileCalls, linkCalls, createdBy,
        Call.creates, hv, hf, hp]
    · rw [after_deleted]
      simp [deletedBy_append, startupCalls, successCalls, compileCalls, linkCalls, deletedBy,
        Call.deletes, hv, hf, hp, GLState.init]
  · apply AllCalls_of_forall
    simp [Call.api]

/-- C9: whenever a run of main calls `glDrawArrays`, the program bound at that moment
is nonzero, is the handle `CreateTriangle` returned, and names a program object that
has been created and not deleted; in particular no draw call is made with program
0 bound. -/
theorem draw_program_bound (env : Env) (fuel : Nat) (pre post : List Call) (mode : Nat)
    (first count : Int)
    (h : (main env fuel).world.trace = pre ++ Call.glDrawArrays mode first count :: post) :
    (GLState.init.after pre).currentProgram ≠ 0
      ∧ (∃ w0 w1, CreateTriangle env.driver w0
          = .ok (GLState.init.after pre).currentProgram w1)
      ∧ Obj.program (GLState.init.after pre).currentProgram ∈ (GLState.init.after pre).created
      ∧ Obj.program (GLState.init.after pre).currentProgram
          ∉ (GLState.init.after pre).deleted := by
  have hmem : Call.glDrawArrays mode first count ∈ (main env fuel).world.trace := by
    rw [h]; simp
  rcases main_cases env fuel with ⟨-, hm⟩ | ⟨-, -, hm⟩ | ⟨-, -, -, hm⟩ |
    ⟨-, -, -, wf, -, hm⟩ | ⟨-, -, -, w1, -, hm⟩ | ⟨-, -, -, hp, hct, hm⟩
  · have := main_setup_trace env fuel (Or.inl ⟨_, hm⟩) _ hmem
    simp [Call.api, setupApis] at this
  · have := main_setup_trace env fuel (Or.inl ⟨_, hm⟩) _ hmem
    simp [Call.api, setupApis] at this
  · have := main_setup_trace env fuel (Or.inl ⟨_, hm⟩) _ hmem
    simp [Call.api, setupApis] at this
  · have := main_setup_trace env fuel (Or.inr ⟨_, hm⟩) _ hmem
    simp [Call.api, setupApis] at this
  · have := main_setup_trace env fuel (Or.inl ⟨_, hm⟩) _ hmem
    simp [Call.api, setupApis] at this
  · obtain ⟨-, -, hv, hf, -⟩ := CreateTriangle_ok_nonzero _ _ _ _ hct hp
    have hall := run_draws env fuel hv hf hp
    have key : ∃ tail, runCalls env fuel ++
        [.glDeleteVertexArrays 1 (env.driver.genVertexArray.getD 0),
         .glDeleteProgram env.driver.createProgram, .glfwTerminate]
        = pre ++ Call.glDrawArrays mode first count :: tail := by
      rw [hm] at h
      by_cases hx : loopExits env fuel 0 false = true
      · rw [if_pos hx] at h
        simp only [Outcome.world, World.extend, World.init, List.nil_append] at h
        exact ⟨post, h⟩
      · rw [if_neg hx] at h
        simp only [Outcome.world, World.extend, World.init, List.nil_append] at h
        refine ⟨post ++ [.glDeleteVertexArrays 1 (env.driver.genVertexArray.getD 0),
          .glDeleteProgram env.driver.createProgram, .glfwTerminate], ?_⟩
        rw [h]; simp
    obtain ⟨tail, htail⟩ := key
    rw [htail] at hall
    obtain ⟨h1, h2, h3⟩ := AllCalls_split _ _ _ _ _ hall rfl
    rw [h1]
    exact ⟨hp, ⟨_, _, hct⟩, h2, h3⟩

theorem draw_program_bound_witness :
    (GLState.init.after ((main escEnv 5).world.trace.take 30)).currentProgram ≠ 0
      ∧ (∃ w0 w1, CreateTriangle escEnv.driver w0
          = .ok (GLState.init.after ((main escEnv 5).world.trace.take 30)).currentProgram w1)
      ∧ Obj.program (GLState.init.after ((main escEnv 5).world.trace.take 30)).currentProgram
          ∈ (GLState.init.after ((main escEnv 5).world.trace.take 30)).created
      ∧ Obj.program (GLState.init.after ((main escEnv 5).world.trace.take 30)).currentProgram
          ∉ (GLState.init.after ((main escEnv 5).world.trace.take 30)).deleted :=
  draw_program_bound escEnv 5 ((main escEnv 5).world.trace.take 30)
    ((main escEnv 5).world.trace.drop 31) GL_TRIANGLES 0 6 (by decide)

/-! ## What the shader module does when every reported info log is non-empty -/

theorem takeWhile_before_NUL (a r : List Char) :
    (a ++ NUL :: r).takeWhile (fun c => decide (c ≠ NUL))
      = a.takeWhile (fun c => decide (c ≠ NUL)) := by
  induction a with
  | nil => simp [List.takeWhile]
  | cons x a ih =>
    by_cases hx : x = NUL
    · simp [List.takeWhile, hx]
    · have hd : decide (x ≠ NUL) = true := by simpa using hx
      simp only [List.cons_append, List.takeWhile, hd]
      exact congrArg (List.cons x) ih

theorem cString_writeInfoLog (text buf : List Char) (len : Int) (h : 0 < len) :
    cString (writeInfoLog text len buf)
      = some ((text.take (min text.length (len.toNat - 1))).takeWhile
          (fun c => decide (c ≠ NUL))) := by
  have hl : ¬ len ≤ 0 := by omega
  simp only [writeInfoLog, hl, if_false, cString, List.append_assoc, List.singleton_append]
  rw [if_pos (by simp), takeWhile_before_NUL]

theorem vectorChar_of_pos (len : Int) (h : 0 < len) :
    vectorChar len = some (List.replicate len.toNat NUL) := by
  have hl : 0 ≤ len := by omega
  simp [vectorChar, hl]

theorem Compile_returns (d : Driver) (type : Nat) (src : Source) (w : World)
    (h : d.compileStatus type = 0 →
      0 < (d.getShaderiv (d.createShader type) GL_INFO_LOG_LENGTH).getD 0) :
    ∃ r w1, Compile d type src w = .ok r w1 := by
  by_cases hs : d.compileStatus type = 0
  · have hs2 : (d.getShaderiv (d.createShader type) GL_COMPILE_STATUS).getD GL_FALSE = 0 := hs
    simp only [Compile, hs2, if_true, vectorChar_of_pos _ (h hs),
      cString_writeInfoLog _ _ _ (h hs)]
    exact ⟨_, _, rfl⟩
  · have hs2 : ¬ (d.getShaderiv (d.createShader type) GL_COMPILE_STATUS).getD GL_FALSE = 0 := hs
    simp only [Compile, hs2, if_false]
    exact ⟨_, _, rfl⟩

theorem Link_returns (d : Driver) (vs fs : Nat) (w : World)
    (h : d.linkStatus = 0 → 0 < (d.getProgramiv d.createProgram GL_INFO_LOG_LENGTH).getD 0) :
    ∃ r w1, Link d vs fs w = .ok r w1 := by
  by_cases hs : d.linkStatus = 0
  · have hs2 : (d.getProgramiv d.createProgram GL_LINK_STATUS).getD GL_FALSE = 0 := hs
    simp only [Link, hs2, if_true, vectorChar_of_pos _ (h hs),
      cString_writeInfoLog _ _ _ (h hs)]
    exact ⟨_, _, rfl⟩
  · have hs2 : ¬ (d.getProgramiv d.createProgram GL_LINK_STATUS).getD GL_FALSE = 0 := hs
    simp only [Link, hs2, if_false]
    exact ⟨_, _, rfl⟩

/-- Provided every stage that fails reports an info log of positive length,
`CreateTriangle` returns, and with nonzero names it returns 0 exactly when a stage
failed to compile or the link failed, and the program name otherwise. -/
theorem CreateTriangle_result (d : Driver) (w : World)
    (hv : d.createShader GL_VERTEX_SHADER ≠ 0) (hf : d.createShader GL_FRAGMENT_SHADER ≠ 0)
    (hp : d.createProgram ≠ 0)
    (h1 : d.compileStatus GL_VERTEX_SHADER = 0 →
      0 < (d.getShaderiv (d.createShader GL_VERTEX_SHADER) GL_INFO_LOG_LENGTH).getD 0)
    (h2 : d.compileStatus GL_FRAGMENT_SHADER = 0 →
      0 < (d.getShaderiv (d.createShader GL_FRAGMENT_SHADER) GL_INFO_LOG_LENGTH).getD 0)
    (h3 : d.linkStatus = 0 → 0 < (d.getProgramiv d.createProgram GL_INFO_LOG_LENGTH).getD 0) :
    ∃ r w1, CreateTriangle d w = .ok r w1
      ∧ (r = 0 ↔ (d.compileStatus GL_VERTEX_SHADER = 0 ∨ d.compileStatus GL_FRAGMENT_SHADER = 0
          ∨ d.linkStatus = 0))
      ∧ (r ≠ 0 → r = d.createProgram) := by
  have hret : ∃ r w1, CreateTriangle d w = .ok r w1 := by
    simp only [CreateTriangle]
    obtain ⟨vs, w2, e1⟩ := Compile_returns d GL_VERTEX_SHADER .vertexShaderSource w h1
    rw [e1]
    simp only [Outcome.bind]
    by_cases hvs : vs = 0
    · exact ⟨_, _, by rw [if_pos hvs]⟩
    · rw [if_neg hvs]
      obtain ⟨fs, w3, e2⟩ := Compile_returns d GL_FRAGMENT_SHADER .fragmentShaderSource w2 h2
      rw [e2]
      simp only [Outcome.bind]
      by_cases hfs : fs = 0
      · exact ⟨_, _, by rw [if_pos hfs]⟩
      · rw [if_neg hfs]
        obtain ⟨p, w4, e3⟩ := Link_returns d vs fs w3 h3
        rw [e3]
        exact ⟨_, _, rfl⟩
  obtain ⟨r, w1, hr⟩ := hret
  refine ⟨r, w1, hr, ?_, ?_⟩
  · obtain ⟨t, cs, -, hc⟩ := CreateTriangle_ok_cases d w w1 r hr
    rcases hc with ⟨-, h0, -⟩ | ⟨e, s1, -⟩ | ⟨-, -, -, h0, -⟩ | ⟨e, -, -, s2, -⟩ |
      ⟨e, -, -, s1, -, s2, s3, -⟩ | ⟨e, -, -, -, -, s3, -⟩
    · exact absurd h0 hv
    · exact ⟨fun _ => Or.inl s1, fun _ => e⟩
    · exact absurd h0 hf
    · exact ⟨fun _ => Or.inr (Or.inl s2), fun _ => e⟩
    · constructor
      · intro h0; rw [e] at h0; exact absurd h0 hp
      · rintro (h0 | h0 | h0)
        · exact absurd h0 s1
        · exact absurd h0 s2
        · exact absurd h0 s3
    · exact ⟨fun _ => Or.inr (Or.inr s3), fun _ => e⟩
  · intro hne
    exact (CreateTriangle_ok_nonzero d w w1 r hr hne).1

/-- A failing compile for which the driver reports an info log `text` without
embedded terminator, of length `text.length + 1` as GL counts it, writes the stage
name, ` shader compile error:`, the log and a newline to standard error, deletes the
shader and returns 0. -/
theorem Compile_reports_log (d : Driver) (type : Nat) (src : Source) (w : World)
    (text : List Char) (hs : d.compileStatus type = 0)
    (hlen : (d.getShaderiv (d.createShader type) GL_INFO_LOG_LENGTH).getD 0
      = (text.length : Int) + 1)
    (htext : d.shaderInfoLog (d.createShader type) = text) (hnul : NUL ∉ text) :
    Compile d type src w = .ok 0
      ((cerrWrite ((if type = GL_VERTEX_SHADER then "Vertex" else "Fragment")
          ++ " shader compile error:\n" ++ String.mk text ++ "\n") w).extend
        (compileFailCalls d type src)) := by
  have hs2 : (d.getShaderiv (d.createShader type) GL_COMPILE_STATUS).getD GL_FALSE = 0 := hs
  have hpos : 0 < (d.getShaderiv (d.createShader type) GL_INFO_LOG_LENGTH).getD 0 := by
    rw [hlen]; omega
  have htw : (text.take (min text.length
      (((d.getShaderiv (d.createShader type) GL_INFO_LOG_LENGTH).getD 0).toNat - 1))).takeWhile
        (fun c => decide (c ≠ NUL)) = text := by
    rw [hlen]
    have : ((text.length : Int) + 1).toNat - 1 = text.length := by omega
    rw [this, Nat.min_self, List.take_length]
    rw [List.takeWhile_eq_self_iff]
    intro c hc
    simp only [decide_eq_true_eq]
    intro hcn
    exact hnul (hcn ▸ hc)
  simp only [Compile, hs2, if_true, vectorChar_of_pos _ hpos,
    cString_writeInfoLog _ _ _ hpos, htext, htw]
  simp only [emit_eq_extend, cerrWrite_extend, extend_extend, cerrWrite_cerrWrite,
    compileFailCalls, compileCalls, List.cons_append, List.nil_append, String.append_assoc]

end Triangle
